import Mathlib

/-!
# Verification of the top-down shooter simulation core (`src/engine/doomEngine.ts`)

This file gives a shallow embedding, in Lean 4, of the per-tick simulation
functions of the `DoomEngine` class, and proves the testable properties of the
specification against that embedding.

Embedding conventions:

* JavaScript `number`s are modelled as exact rationals (`ℚ`).  All game
  arithmetic in the embedded functions uses the same operations as the source.
* Calls into the host `Math` library that produce irrational values
  (`Math.cos`, `Math.sin`, `Math.atan2`, `Math.sqrt`, `Math.hypot` used as a
  *value*, and the constant `Math.PI`) are modelled by an explicit oracle
  parameter (`MathOracle`); no verified property depends on the oracle's
  values.  Where the source only *compares* `Math.hypot dx dy` against a
  threshold, the comparison is embedded exactly via squared distances
  (`hypotLt` / `hypotGt` below), which agree with the real-number comparison.
* `Math.random()` is modelled as an explicit stream of rationals (`Rng`),
  consumed in exactly the order the source consumes `Math.random()` calls.
* Mutation of the engine's fields is modelled by explicit state passing over
  the `GameState` record; the rendering, audio and host-snapshot calls
  (`render`, `playShot`, `playHit`, `emitState`, `updateFps`...) only touch
  presentation state and are not part of the simulation state modelled here.
-/

namespace Doom

/-! ## Game constants (`src/engine/doomEngine.ts` lines 107-114) -/

def TILE_SIZE : ℚ := 32
def PLAYER_SIZE : ℚ := 18
def BULLET_SPEED : ℚ := 900
def BULLET_LIFE : ℚ := 2
def FIRE_RATE : ℚ := 8/100
def WAVE_SPAWN_DELAY : ℚ := 3
def MAX_DECALS : ℕ := 200
def MAX_PARTICLES : ℕ := 500

/-! ## Entity records (`src/engine/doomEngine.ts` lines 12-101) -/

structure Player where
  x : ℚ
  y : ℚ
  angle : ℚ
  health : ℚ
  maxHealth : ℚ
  ammo : ℚ
  speed : ℚ
  animFrame : ℚ
  walkCycle : ℚ
  deriving Repr, DecidableEq

structure Bullet where
  x : ℚ
  y : ℚ
  vx : ℚ
  vy : ℚ
  damage : ℚ
  isEnemy : Bool
  life : ℚ
  caliber : ℚ
  deriving Repr, DecidableEq

inductive EnemyType where
  | zombie | runner | tank | shooter | spitter
  deriving Repr, DecidableEq

structure Enemy where
  x : ℚ
  y : ℚ
  hp : ℚ
  maxHp : ℚ
  alive : Bool
  type : EnemyType
  speed : ℚ
  attackCooldown : ℚ
  attackRange : ℚ
  damage : ℚ
  size : ℚ
  color : String
  glowColor : String
  animFrame : ℚ
  hitFlash : ℚ
  deathTimer : ℚ
  deriving Repr, DecidableEq

inductive PickupType where
  | health | ammo | armor
  deriving Repr, DecidableEq

structure Pickup where
  x : ℚ
  y : ℚ
  type : PickupType
  amount : ℚ
  collected : Bool
  bobOffset : ℚ
  deriving Repr, DecidableEq

inductive ParticleType where
  | spark | blood | smoke | shell | gib | explosion | ember | dust | electric
  deriving Repr, DecidableEq

structure Particle where
  x : ℚ
  y : ℚ
  vx : ℚ
  vy : ℚ
  life : ℚ
  maxLife : ℚ
  color : String
  size : ℚ
  type : ParticleType
  rotation : ℚ
  rotationSpeed : ℚ
  gravity : ℚ
  deriving Repr, DecidableEq

inductive DecalType where
  | blood | scorch | crack
  deriving Repr, DecidableEq

structure Decal where
  x : ℚ
  y : ℚ
  type : DecalType
  size : ℚ
  rotation : ℚ
  alpha : ℚ
  color : String
  deriving Repr, DecidableEq

structure Light where
  x : ℚ
  y : ℚ
  radius : ℚ
  intensity : ℚ
  color : String
  life : ℚ
  maxLife : ℚ
  deriving Repr, DecidableEq

/-- Engine status (`EngineSnapshot['status']` in `src/engine/types.ts`). -/
inductive Status where
  | loading | ready | running | gameover
  deriving Repr, DecidableEq

/-- Input state for the running engine (`src/engine/input.ts`). -/
structure InputState where
  forward : Bool
  back : Bool
  left : Bool
  right : Bool
  fire : Bool
  joystickX : ℚ
  joystickY : ℚ
  joystickActive : Bool
  aimX : ℚ
  aimY : ℚ
  aimActive : Bool
  deriving Repr, DecidableEq

/-- `createInputState()` restricted to the fields the update loop reads. -/
def createInputState : InputState :=
  { forward := false, back := false, left := false, right := false
    fire := false, joystickX := 0, joystickY := 0, joystickActive := false
    aimX := 0, aimY := 0, aimActive := false }

/-- Level data consumed from the external loader (`@/assets/levels`), per the
level-data contract: a width × height grid of tile codes (0 = floor,
>0 = wall variant) and a player spawn pose. -/
structure ParsedLevel where
  width : ℕ
  height : ℕ
  tiles : List (List ℕ)
  playerStartX : ℚ
  playerStartY : ℚ
  playerStartAngle : ℚ

/-! ## `Math.random()` as an explicit stream -/

/-- The sequence of values the host's `Math.random()` will return, together
with a cursor.  Each embedded `Math.random()` call reads `vals idx` and
advances the cursor. -/
structure Rng where
  vals : ℕ → ℚ
  idx : ℕ

def Rng.next (r : Rng) : ℚ × Rng :=
  (r.vals r.idx, ⟨r.vals, r.idx + 1⟩)

/-- Oracle for the irrational-valued `Math` calls the engine makes.  Verified
properties never depend on these values. -/
structure MathOracle where
  cos : ℚ → ℚ
  sin : ℚ → ℚ
  atan2 : ℚ → ℚ → ℚ
  hypot : ℚ → ℚ → ℚ
  sqrt : ℚ → ℚ
  pi : ℚ

/-! ## Exact embedding of `Math.hypot` threshold comparisons

`Math.hypot dx dy` is the nonnegative real square root of `dx² + dy²`.
For any rational threshold `c`: `hypot dx dy < c ↔ 0 ≤ c ∧ dx² + dy² < c²`
and `hypot dx dy > c ↔ c < 0 ∨ c² < dx² + dy²`.  The embedded comparisons
below are therefore exactly the source's comparisons, with no approximation. -/

def hypotLt (dx dy c : ℚ) : Bool :=
  decide (0 ≤ c ∧ dx ^ 2 + dy ^ 2 < c ^ 2)

def hypotGt (dx dy c : ℚ) : Bool :=
  decide (c < 0 ∨ c ^ 2 < dx ^ 2 + dy ^ 2)

/-! ## Tile queries -/

/-- `this.level.tiles[tileY]?.[tileX]` — optional-chained tile lookup used by
`getRandomSpawnPosition` (out-of-range indices give `none`, as the JS
expression gives `undefined`). -/
def tileAt (level : ParsedLevel) (tileX tileY : ℤ) : Option ℕ :=
  if 0 ≤ tileX ∧ 0 ≤ tileY then
    (level.tiles.get? tileY.toNat).bind (fun row => row.get? tileX.toNat)
  else
    none

/-- `isWall(x, y)` (`src/engine/doomEngine.ts` lines 1359-1369).  The direct
index `tiles[tileY][tileX]` taken after the bounds check is modelled with a
default of 0; the level-data contract assumes a well-formed grid. -/
def isWall (level : Option ParsedLevel) (x y : ℚ) : Bool :=
  match level with
  | none => true
  | some lv =>
    let tileX : ℤ := ⌊x / TILE_SIZE⌋
    let tileY : ℤ := ⌊y / TILE_SIZE⌋
    if tileY < 0 ∨ (lv.height : ℤ) ≤ tileY ∨ tileX < 0 ∨ (lv.width : ℤ) ≤ tileX then
      true
    else
      decide (0 < ((lv.tiles.getD tileY.toNat []).getD tileX.toNat 0))

/-! ## Enemy templates (`ENEMY_TYPES`, lines 116-172) -/

/-- Per-type stat template; `createEnemy` spreads this into a fresh enemy. -/
def enemyTemplate (t : EnemyType) : Enemy :=
  match t with
  | .zombie =>
    { x := 0, y := 0, hp := 40, maxHp := 40, alive := false, type := .zombie
      speed := 55, attackCooldown := 0, attackRange := 28, damage := 12, size := 16
      color := "#3d5c3d", glowColor := "#1a3a1a", animFrame := 0, hitFlash := 0, deathTimer := 0 }
  | .runner =>
    { x := 0, y := 0, hp := 25, maxHp := 25, alive := false, type := .runner
      speed := 160, attackCooldown := 0, attackRange := 22, damage := 8, size := 12
      color := "#8b5a2b", glowColor := "#5a3a1a", animFrame := 0, hitFlash := 0, deathTimer := 0 }
  | .tank =>
    { x := 0, y := 0, hp := 150, maxHp := 150, alive := false, type := .tank
      speed := 30, attackCooldown := 0, attackRange := 35, damage := 30, size := 28
      color := "#4a4a6a", glowColor := "#2a2a4a", animFrame := 0, hitFlash := 0, deathTimer := 0 }
  | .shooter =>
    { x := 0, y := 0, hp := 50, maxHp := 50, alive := false, type := .shooter
      speed := 40, attackCooldown := 0, attackRange := 280, damage := 18, size := 15
      color := "#6b3030", glowColor := "#4a1a1a", animFrame := 0, hitFlash := 0, deathTimer := 0 }
  | .spitter =>
    { x := 0, y := 0, hp := 35, maxHp := 35, alive := false, type := .spitter
      speed := 50, attackCooldown := 0, attackRange := 200, damage := 25, size := 18
      color := "#2d6b4f", glowColor := "#1a4a3a", animFrame := 0, hitFlash := 0, deathTimer := 0 }

/-- `getEnemyScore` (lines 1136-1144). -/
def getEnemyScore (t : EnemyType) : ℕ :=
  match t with
  | .zombie => 10
  | .runner => 15
  | .tank => 50
  | .shooter => 30
  | .spitter => 25

/-! ## The engine's mutable simulation state as one record -/

/-- The simulation-relevant mutable fields of the `DoomEngine` class
(lines 183-250).  Rendering-only fields (fps counters, canvas, patterns,
ambient particles) are not part of the simulated state. -/
structure GameState where
  player : Player
  enemies : List Enemy
  bullets : List Bullet
  pickups : List Pickup
  particles : List Particle
  decals : List Decal
  lights : List Light
  kills : ℕ
  wave : ℕ
  score : ℕ
  waveTimer : ℚ
  enemiesPerWave : ℕ
  waveInProgress : Bool
  status : Status
  fireCooldown : ℚ
  hitFlash : ℚ
  screenShake : ℚ
  gameTime : ℚ
  levelIndex : ℕ
  level : Option ParsedLevel
  input : InputState
  cameraX : ℚ
  cameraY : ℚ
  mouseX : ℚ
  mouseY : ℚ
  viewW : ℚ
  viewH : ℚ
  rng : Rng

/-- `createEnemy(x, y, type)` (lines 728-740); consumes two `Math.random()`
values (attack cooldown, animation frame). -/
def createEnemy (x y : ℚ) (t : EnemyType) (r : Rng) : Enemy × Rng :=
  let (rc, r1) := r.next
  let (ra, r2) := r1.next
  ({ enemyTemplate t with
      x := x, y := y, alive := true
      attackCooldown := rc * (1/2)
      animFrame := ra * 10
      hitFlash := 0, deathTimer := 0 }, r2)

/-! ## Spawn-point sampling (`getRandomSpawnPosition`, lines 742-760) -/

/-- Whether a sampled point `(x, y)` is accepted: it must lie on a floor tile
and at (real, exact) distance > 250 from the player. -/
def spawnAccept (level : ParsedLevel) (pl : Player) (x y : ℚ) : Bool :=
  tileAt level ⌊x / TILE_SIZE⌋ ⌊y / TILE_SIZE⌋ == some 0 &&
    hypotGt (x - pl.x) (y - pl.y) 250

/-- The candidate point derived from two raw `Math.random()` values. -/
def spawnCandidate (level : ParsedLevel) (rx ry : ℚ) : ℚ × ℚ :=
  (rx * ((level.width : ℚ) * TILE_SIZE - TILE_SIZE * 2) + TILE_SIZE,
   ry * ((level.height : ℚ) * TILE_SIZE - TILE_SIZE * 2) + TILE_SIZE)

/-- The attempt loop of `getRandomSpawnPosition`, with `fuel` attempts left.
Each attempt consumes exactly two `Math.random()` values. -/
def spawnLoop (level : ParsedLevel) (pl : Player) : ℕ → Rng → Option (ℚ × ℚ) × Rng
  | 0, r => (none, r)
  | fuel + 1, r =>
    let (rx, r1) := r.next
    let (ry, r2) := r1.next
    let c := spawnCandidate level rx ry
    if spawnAccept level pl c.1 c.2 then
      (some c, r2)
    else
      spawnLoop level pl fuel r2

/-- Acceptance of one attempt of `getRandomSpawnPosition` in terms of the two
raw `Math.random()` values it draws. -/
def spawnAttemptOk (level : ParsedLevel) (pl : Player) (rx ry : ℚ) : Bool :=
  spawnAccept level pl (spawnCandidate level rx ry).1 (spawnCandidate level rx ry).2

/-- `getRandomSpawnPosition()` (lines 742-760): up to 50 rejection-sampling
attempts; `none` when the level is absent or all attempts fail. -/
def getRandomSpawnPosition (s : GameState) : Option (ℚ × ℚ) × GameState :=
  match s.level with
  | none => (none, s)
  | some lv =>
    let (res, r') := spawnLoop lv s.player 50 s.rng
    (res, { s with rng := r' })

/-! ## Wave spawning (`spawnWave`, lines 706-726) -/

/-- The unlocked enemy-type pool for a wave (lines 710-715): tiers are added
cumulatively at wave thresholds 2, 3, 4, 5. -/
def waveTypes (wave : ℕ) : List EnemyType :=
  let t : List EnemyType := [.zombie, .zombie, .zombie, .runner]
  let t := if 2 ≤ wave then t ++ [.runner, .runner, .zombie] else t
  let t := if 3 ≤ wave then t ++ [.tank, .shooter] else t
  let t := if 4 ≤ wave then t ++ [.shooter, .shooter, .spitter] else t
  if 5 ≤ wave then t ++ [.tank, .spitter, .spitter] else t

/-- One wave-spawn iteration repeated `n` times (the `for` loop of
`spawnWave`): sample a position; on success pick a uniformly random type and
create the enemy, on failure skip this spawn.  `types[⌊random*len⌋]` always
indexes in range for `random ∈ [0, 1)`; the (never exercised) out-of-range
default is `zombie`. -/
def spawnWaveLoop (level : ParsedLevel) (pl : Player) (types : List EnemyType) :
    ℕ → Rng → List Enemy × Rng
  | 0, r => ([], r)
  | n + 1, r =>
    let (pos, r1) := spawnLoop level pl 50 r
    match pos with
    | some (x, y) =>
      let (rt, r2) := r1.next
      let t := (types.get? (⌊rt * (types.length : ℚ)⌋).toNat).getD .zombie
      let (e, r3) := createEnemy x y t r2
      let (rest, r4) := spawnWaveLoop level pl types n r3
      (e :: rest, r4)
    | none =>
      spawnWaveLoop level pl types n r1

/-- `spawnWave()` (lines 706-726).  `Math.floor(this.wave * 2) = 2 * wave`
since the wave counter is a natural number. -/
def spawnWave (s : GameState) : GameState :=
  match s.level with
  | none => s
  | some lv =>
    let enemyCount := s.enemiesPerWave + 2 * s.wave
    let types := waveTypes s.wave
    let (newEnemies, r') := spawnWaveLoop lv s.player types enemyCount s.rng
    { s with enemies := s.enemies ++ newEnemies, rng := r', waveInProgress := true }

/-! ## Initial pickups (`spawnPickups`, lines 762-784) -/

def spawnPickupsLoop (M : MathOracle) (level : ParsedLevel) (pl : Player) :
    ℕ → Rng → List Pickup × Rng
  | 0, r => ([], r)
  | n + 1, r =>
    let (pos, r1) := spawnLoop level pl 50 r
    match pos with
    | some (x, y) =>
      let (rand, r2) := r1.next
      let t : PickupType :=
        if rand < 4/10 then .health else if rand < 8/10 then .ammo else .armor
      let (rb, r3) := r2.next
      let pk : Pickup :=
        { x := x, y := y, type := t
          amount := if t = .ammo then 50 else 25
          collected := false
          bobOffset := rb * M.pi * 2 }
      let (rest, r4) := spawnPickupsLoop M level pl n r3
      (pk :: rest, r4)
    | none =>
      spawnPickupsLoop M level pl n r1

/-- `spawnPickups()` (lines 762-784): 15 placement attempts; each successful
placement draws the pickup kind and a visual bob phase
(`Math.random() * Math.PI * 2`). -/
def spawnPickups (M : MathOracle) (s : GameState) : GameState :=
  match s.level with
  | none => s
  | some lv =>
    let (pks, r') := spawnPickupsLoop M lv s.player 15 s.rng
    { s with pickups := s.pickups ++ pks, rng := r' }

/-! ## Level loading (`loadLevel`, lines 667-704) -/

/-- `loadLevel(index)` (lines 667-704), parameterised over the external level
loader (`loadLevel` from `@/assets/levels`, an external collaborator per the
level-data contract). -/
def loadLevelWith (M : MathOracle) (levels : ℕ → ParsedLevel) (index : ℕ) (s : GameState) : GameState :=
  let lv := levels index
  let s := { s with
    levelIndex := index
    level := some lv
    player :=
      { x := lv.playerStartX * TILE_SIZE + TILE_SIZE / 2
        y := lv.playerStartY * TILE_SIZE + TILE_SIZE / 2
        angle := lv.playerStartAngle
        health := 100, maxHealth := 100, ammo := 250, speed := 180
        animFrame := 0, walkCycle := 0 }
    enemies := [], bullets := [], pickups := [], particles := [], decals := [], lights := []
    kills := 0, wave := 1, score := 0
    waveTimer := 2, waveInProgress := false
    enemiesPerWave := 8 + index * 4
    gameTime := 0, screenShake := 0
    fireCooldown := 0, hitFlash := 0 }
  spawnPickups M (spawnWave s)

/-! ## Frame-delta clamping (`loop`, lines 786-794) -/

/-- The delta-time computation of the frame loop:
`Math.min(0.05, (time - lastTime) / 1000)`. -/
def clampDt (time lastTime : ℚ) : ℚ :=
  min (1/20) ((time - lastTime) / 1000)

/-! ## Player fire action (`shoot`, lines 877-944) -/

/-- The muzzle-flash spark loop of `shoot` (lines 910-926): `n` sparks, each
consuming six `Math.random()` values in source order (cone angle, two speed
rolls, life, color pick, size). -/
def shootSparkBurst (M : MathOracle) (px py c sn angle : ℚ) :
    ℕ → Rng → List Particle × Rng
  | 0, r => ([], r)
  | n + 1, r =>
    let (ra, r1) := r.next
    let a := angle + (ra - 1/2) * (1/2)
    let (rvx, r2) := r1.next
    let (rvy, r3) := r2.next
    let (rl, r4) := r3.next
    let (rc, r5) := r4.next
    let (rs, r6) := r5.next
    let p : Particle :=
      { x := px + c * 28, y := py + sn * 28
        vx := M.cos a * (200 + rvx * 150)
        vy := M.sin a * (200 + rvy * 150)
        life := 8/100 + rl * (5/100), maxLife := 15/100
        color := if 1/2 < rc then "#ffcc00" else "#ff6600"
        size := 3 + rs * 3
        type := .spark, rotation := 0, rotationSpeed := 0, gravity := 0 }
    let (rest, r7) := shootSparkBurst M px py c sn angle n r6
    (p :: rest, r7)

/-- `shoot()` (lines 877-944): spend one ammo, add screen kick, push the
player bullet (damage 22), a muzzle light, eight sparks and an ejected
shell casing. -/
def shoot (M : MathOracle) (s : GameState) : GameState :=
  let pl := { s.player with ammo := s.player.ammo - 1 }
  let ss := min (s.screenShake + 1/2) 3
  let (rs, r1) := s.rng.next
  let spread := (rs - 1/2) * (5/100)
  let angle := pl.angle + spread
  let c := M.cos angle
  let sn := M.sin angle
  let b : Bullet :=
    { x := pl.x + c * 25, y := pl.y + sn * 25
      vx := c * BULLET_SPEED, vy := sn * BULLET_SPEED
      damage := 22, isEnemy := false, life := BULLET_LIFE, caliber := 3 }
  let l : Light :=
    { x := pl.x + c * 30, y := pl.y + sn * 30, radius := 80, intensity := 1
      color := "#ffaa00", life := 5/100, maxLife := 5/100 }
  let (sparks, r2) := shootSparkBurst M pl.x pl.y c sn angle 8 r1
  let shellAngle := pl.angle + M.pi / 2
  let cs := M.cos shellAngle
  let sns := M.sin shellAngle
  let (rvx, r3) := r2.next
  let (rvy, r4) := r3.next
  let (rrot, r5) := r4.next
  let (rrs, r6) := r5.next
  let shellP : Particle :=
    { x := pl.x + cs * 8, y := pl.y + sns * 8
      vx := cs * (80 + rvx * 40)
      vy := sns * (80 + rvy * 40) - 50
      life := 2, maxLife := 2, color := "#d4a574", size := 4
      type := .shell, rotation := rrot * M.pi * 2, rotationSpeed := 15 + rrs * 10
      gravity := 400 }
  { s with
    player := pl, screenShake := ss,
    bullets := s.bullets ++ [b],
    lights := s.lights ++ [l],
    particles := s.particles ++ sparks ++ [shellP],
    rng := r6 }

/-! ## Player update (`updatePlayer`, lines 822-875) -/

/-- The movement block of `updatePlayer(dt)` (lines 822-860): joystick-or-
keyboard movement vector, renormalised when its magnitude exceeds 1,
walk-cycle advance, axis-separated wall collision, and the fire/hit-flash
cooldown decays.  The magnitude test `len > 1` is embedded exactly as
`1 < moveX² + moveY²`; the division by the irrational length goes through
the `sqrt` oracle. -/
def updatePlayerMove (M : MathOracle) (dt : ℚ) (s : GameState) : GameState :=
  let inp := s.input
  let mv : ℚ × ℚ :=
    if inp.joystickActive then (inp.joystickX, inp.joystickY)
    else
      ((if inp.left then (-1 : ℚ) else 0) + (if inp.right then (1 : ℚ) else 0),
       (if inp.forward then (-1 : ℚ) else 0) + (if inp.back then (1 : ℚ) else 0))
  let isMoving := ¬ (mv.1 = 0 ∧ mv.2 = 0)
  let mv :=
    if isMoving ∧ 1 < mv.1 * mv.1 + mv.2 * mv.2 then
      let len := M.sqrt (mv.1 * mv.1 + mv.2 * mv.2)
      (mv.1 / len, mv.2 / len)
    else mv
  let pl := s.player
  let pl := if isMoving then { pl with walkCycle := pl.walkCycle + dt * 12 } else pl
  let newX := pl.x + mv.1 * pl.speed * dt
  let newY := pl.y + mv.2 * pl.speed * dt
  let pl := if ¬ isWall s.level newX pl.y then { pl with x := newX } else pl
  let pl := if ¬ isWall s.level pl.x newY then { pl with y := newY } else pl
  { s with
    player := pl
    fireCooldown := max 0 (s.fireCooldown - dt)
    hitFlash := max 0 (s.hitFlash - dt) }

/-- The firing block of `updatePlayer` (lines 862-865): the test reads the
already-decayed `fireCooldown` field and the current ammo count. -/
def updatePlayerFire (M : MathOracle) (s : GameState) : GameState :=
  if s.input.fire ∧ s.fireCooldown ≤ 0 ∧ 0 < s.player.ammo then
    { shoot M s with fireCooldown := FIRE_RATE }
  else s

/-- The aim block of `updatePlayer` (lines 867-874): touch aim when active,
otherwise mouse aim (`updatePlayerAngle`, lines 551-555). -/
def updatePlayerAim (M : MathOracle) (s : GameState) : GameState :=
  if s.input.aimActive then
    { s with player := { s.player with
        angle := M.atan2 (s.input.aimY - (s.player.y - s.cameraY))
                         (s.input.aimX - (s.player.x - s.cameraX)) } }
  else
    { s with player := { s.player with
        angle := M.atan2 (s.mouseY - (s.player.y - s.cameraY))
                         (s.mouseX - (s.player.x - s.cameraX)) } }

/-- `updatePlayer(dt)` (lines 822-875): the three blocks in source order. -/
def updatePlayer (M : MathOracle) (dt : ℚ) (s : GameState) : GameState :=
  updatePlayerAim M (updatePlayerFire M (updatePlayerMove M dt s))

/-! ## Impact and death effects (lines 992-1134) -/

/-- The spark loop of `spawnWallHitEffect` (lines 994-1010). -/
def wallSparkBurst (M : MathOracle) (x y : ℚ) : ℕ → Rng → List Particle × Rng
  | 0, r => ([], r)
  | n + 1, r =>
    let (rangle, r1) := r.next
    let angle := rangle * M.pi * 2
    let (rspeed, r2) := r1.next
    let speed := 100 + rspeed * 150
    let (rl, r3) := r2.next
    let (rc, r4) := r3.next
    let (rsz, r5) := r4.next
    let p : Particle :=
      { x := x, y := y
        vx := M.cos angle * speed, vy := M.sin angle * speed
        life := 2/10 + rl * (2/10), maxLife := 4/10
        color := if 1/2 < rc then "#ffcc00" else "#ffffff"
        size := 2 + rsz * 2
        type := .spark, rotation := 0, rotationSpeed := 0, gravity := 200 }
    let (rest, r6) := wallSparkBurst M x y n r5
    (p :: rest, r6)

/-- `spawnWallHitEffect(x, y)` (lines 992-1033): sparks, a crack decal when
the decal pool is below capacity, and a brief flash light. -/
def spawnWallHitEffect (M : MathOracle) (x y : ℚ) (s : GameState) : GameState :=
  let (sparks, r1) := wallSparkBurst M x y 12 s.rng
  let (ds, r2) :=
    if s.decals.length < MAX_DECALS then
      let (rsz, ra) := r1.next
      let (rrot, rb) := ra.next
      (s.decals ++ [{ x := x, y := y, type := DecalType.crack, size := 8 + rsz * 8
                      rotation := rrot * M.pi * 2, alpha := 6/10, color := "#222" }], rb)
    else (s.decals, r1)
  let l : Light :=
    { x := x, y := y, radius := 40, intensity := 8/10
      color := "#ffaa00", life := 5/100, maxLife := 5/100 }
  { s with
    particles := s.particles ++ sparks, decals := ds,
    lights := s.lights ++ [l], rng := r2 }

/-- The droplet loop of `spawnBloodEffect` (lines 1037-1053). -/
def bloodDropBurst (M : MathOracle) (x y vx vy : ℚ) : ℕ → Rng → List Particle × Rng
  | 0, r => ([], r)
  | n + 1, r =>
    let (rangle, r1) := r.next
    let angle := rangle * M.pi * 2
    let (rspeed, r2) := r1.next
    let speed := 50 + rspeed * 120
    let (rl, r3) := r2.next
    let (rc, r4) := r3.next
    let (rsz, r5) := r4.next
    let p : Particle :=
      { x := x, y := y
        vx := M.cos angle * speed + vx * (3/10)
        vy := M.sin angle * speed + vy * (3/10)
        life := 4/10 + rl * (4/10), maxLife := 8/10
        color := if 3/10 < rc then "#8b0000" else "#cc0000"
        size := 3 + rsz * 4
        type := .blood, rotation := 0, rotationSpeed := 0, gravity := 300 }
    let (rest, r6) := bloodDropBurst M x y vx vy n r5
    (p :: rest, r6)

/-- `spawnBloodEffect(x, y, vx, vy)` (lines 1035-1066): droplets plus a blood
decal when the decal pool is below capacity. -/
def spawnBloodEffect (M : MathOracle) (x y vx vy : ℚ) (s : GameState) : GameState :=
  let (drops, r1) := bloodDropBurst M x y vx vy 15 s.rng
  let (ds, r2) :=
    if s.decals.length < MAX_DECALS then
      let (rsz, ra) := r1.next
      let (rrot, rb) := ra.next
      (s.decals ++ [{ x := x, y := y, type := DecalType.blood, size := 15 + rsz * 20
                      rotation := rrot * M.pi * 2, alpha := 7/10, color := "#6b0000" }], rb)
    else (s.decals, r1)
  { s with particles := s.particles ++ drops, decals := ds, rng := r2 }

/-- The death blood burst of `killEnemy` (lines 1075-1091). -/
def killBloodBurst (M : MathOracle) (x y : ℚ) : ℕ → Rng → List Particle × Rng
  | 0, r => ([], r)
  | n + 1, r =>
    let (rangle, r1) := r.next
    let angle := rangle * M.pi * 2
    let (rspeed, r2) := r1.next
    let speed := 80 + rspeed * 180
    let (rl, r3) := r2.next
    let (rc, r4) := r3.next
    let (rsz, r5) := r4.next
    let p : Particle :=
      { x := x, y := y
        vx := M.cos angle * speed, vy := M.sin angle * speed
        life := 5/10 + rl * (5/10), maxLife := 1
        color := if 4/10 < rc then "#8b0000" else "#550000"
        size := 4 + rsz * 6
        type := .blood, rotation := 0, rotationSpeed := 0, gravity := 250 }
    let (rest, r6) := killBloodBurst M x y n r5
    (p :: rest, r6)

/-- The gib burst of `killEnemy` (lines 1094-1110). -/
def gibBurst (M : MathOracle) (x y : ℚ) (color : String) : ℕ → Rng → List Particle × Rng
  | 0, r => ([], r)
  | n + 1, r =>
    let (rangle, r1) := r.next
    let angle := rangle * M.pi * 2
    let (rspeed, r2) := r1.next
    let speed := 100 + rspeed * 150
    let (rl, r3) := r2.next
    let (rsz, r4) := r3.next
    let (rrot, r5) := r4.next
    let (rrs, r6) := r5.next
    let p : Particle :=
      { x := x, y := y
        vx := M.cos angle * speed, vy := M.sin angle * speed
        life := 15/10 + rl * 1, maxLife := 25/10
        color := color
        size := 6 + rsz * 8
        type := .gib, rotation := rrot * M.pi * 2, rotationSpeed := 8 + rrs * 8
        gravity := 350 }
    let (rest, r7) := gibBurst M x y color n r6
    (p :: rest, r7)

/-- `killEnemy(enemy)` (lines 1068-1134): mark the enemy dead, count the kill,
award the per-type score, kick the screen, spawn the death burst, place the
large blood decal (pushed unconditionally), and roll the probabilistic
pickup drop.  Returns the updated enemy; the caller stores it back at the
enemy's slot, as the source mutates it in place. -/
def killEnemy (M : MathOracle) (e : Enemy) (s : GameState) : Enemy × GameState :=
  let e' := { e with alive := false }
  let (bloodPs, r1) := killBloodBurst M e.x e.y 25 s.rng
  let (gibPs, r2) := gibBurst M e.x e.y e.color 6 r1
  let (rsz, r3) := r2.next
  let (rrot, r4) := r3.next
  let bigDecal : Decal :=
    { x := e.x, y := e.y, type := DecalType.blood, size := 35 + rsz * 25
      rotation := rrot * M.pi * 2, alpha := 8/10, color := "#4a0000" }
  let (rdrop, r5) := r4.next
  let (pks, r6) :=
    if rdrop < 1/4 then
      let (rand, ra) := r5.next
      let (rb, rb2) := ra.next
      (s.pickups ++ [{ x := e.x, y := e.y,
                       type := if rand < 1/2 then PickupType.health else PickupType.ammo,
                       amount := 25, collected := false, bobOffset := rb * M.pi * 2 }], rb2)
    else (s.pickups, r5)
  (e', { s with
         kills := s.kills + 1,
         score := s.score + getEnemyScore e.type,
         screenShake := min (s.screenShake + 2) 6,
         particles := s.particles ++ bloodPs ++ gibPs,
         decals := s.decals ++ [bigDecal],
         pickups := pks, rng := r6 })

/-! ## Bullet update (`updateBullets`, lines 946-990) -/

/-- The inner enemy scan for a player bullet (lines 958-973): the first living
enemy within its size radius takes the bullet's damage and a hit flash, the
bullet dies, a blood effect spawns, and a lethal hit is processed by
`killEnemy`; the scan then stops (`break`). -/
def bulletEnemyLoop (M : MathOracle) (b : Bullet) :
    List Enemy → GameState → List Enemy × Bullet × GameState
  | [], s => ([], b, s)
  | e :: rest, s =>
    if e.alive then
      if hypotLt (b.x - e.x) (b.y - e.y) e.size then
        let e1 := { e with hp := e.hp - b.damage, hitFlash := 1/10 }
        let b' := { b with life := 0 }
        let s1 := spawnBloodEffect M b.x b.y b.vx b.vy s
        if e1.hp ≤ 0 then
          let (e2, s2) := killEnemy M e1 s1
          (e2 :: rest, b', s2)
        else
          (e1 :: rest, b', s1)
      else
        let (es, b', s') := bulletEnemyLoop M b rest s
        (e :: es, b', s')
    else
      let (es, b', s') := bulletEnemyLoop M b rest s
      (e :: es, b', s')

/-- Position integration and lifetime decay of one bullet (lines 948-950). -/
def bulletIntegrate (dt : ℚ) (b : Bullet) : Bullet :=
  { b with x := b.x + b.vx * dt, y := b.y + b.vy * dt, life := b.life - dt }

/-- Wall impact check (lines 952-955). -/
def bulletWallCheck (M : MathOracle) (b : Bullet) (s : GameState) : Bullet × GameState :=
  if isWall s.level b.x b.y then
    ({ b with life := 0 }, spawnWallHitEffect M b.x b.y s)
  else (b, s)

/-- Player-bullet-vs-enemies scan (lines 957-974). -/
def bulletEnemyCheck (M : MathOracle) (b : Bullet) (s : GameState) : Bullet × GameState :=
  if ¬ b.isEnemy ∧ 0 < b.life then
    let r := bulletEnemyLoop M b s.enemies s
    (r.2.1, { r.2.2 with enemies := r.1 })
  else (b, s)

/-- Enemy-bullet-vs-player test (lines 976-986). -/
def bulletPlayerCheck (M : MathOracle) (b : Bullet) (s : GameState) : Bullet × GameState :=
  if b.isEnemy ∧ 0 < b.life then
    if hypotLt (b.x - s.player.x) (b.y - s.player.y) PLAYER_SIZE then
      let s := { s with
        player := { s.player with health := s.player.health - b.damage }
        hitFlash := 3/10
        screenShake := min (s.screenShake + 3) 8 }
      ({ b with life := 0 }, spawnBloodEffect M b.x b.y (b.vx * (3/10)) (b.vy * (3/10)) s)
    else (b, s)
  else (b, s)

/-- One iteration of the bullet loop (lines 947-987): integrate, wall test,
player-bullet-vs-enemies scan, enemy-bullet-vs-player test, in source
order. -/
def updateBulletStep (M : MathOracle) (dt : ℚ) (b : Bullet) (s : GameState) :
    Bullet × GameState :=
  let bs := bulletWallCheck M (bulletIntegrate dt b) s
  let bs := bulletEnemyCheck M bs.1 bs.2
  bulletPlayerCheck M bs.1 bs.2

def updateBulletsLoop (M : MathOracle) (dt : ℚ) :
    List Bullet → GameState → List Bullet × GameState
  | [], s => ([], s)
  | b :: rest, s =>
    let (b', s1) := updateBulletStep M dt b s
    let (bs, s2) := updateBulletsLoop M dt rest s1
    (b' :: bs, s2)

/-- `updateBullets(dt)` (lines 946-990): run every bullet's step, then drop
expired bullets (`life ≤ 0`). -/
def updateBullets (M : MathOracle) (dt : ℚ) (s : GameState) : GameState :=
  let r := updateBulletsLoop M dt s.bullets s
  { r.2 with bullets := r.1.filter (fun b => 0 < b.life) }

/-! ## Enemy AI (`updateEnemies`, lines 1146-1231) -/

/-- `moveEnemy(enemy, dx, dy, dist, dt)` (lines 1183-1196): axis-separated
step toward `(dx, dy)` normalised by `dist` (the caller's `Math.hypot`
value, supplied through the oracle). -/
def moveEnemy (level : Option ParsedLevel) (dt : ℚ) (e : Enemy) (dx dy dist : ℚ) : Enemy :=
  let moveX := dx / dist * e.speed * dt
  let moveY := dy / dist * e.speed * dt
  let newX := e.x + moveX
  let newY := e.y + moveY
  let e := if ¬ isWall level newX e.y then { e with x := newX } else e
  if ¬ isWall level e.x newY then { e with y := newY } else e

/-- `enemyShoot(enemy)` (lines 1198-1231): an aimed enemy bullet with random
spread plus a muzzle light. -/
def enemyShoot (M : MathOracle) (e : Enemy) (s : GameState) : GameState :=
  let angle := M.atan2 (s.player.y - e.y) (s.player.x - e.x)
  let (rs, r1) := s.rng.next
  let spread := (rs - 1/2) * (15/100)
  let finalAngle := angle + spread
  let c := M.cos finalAngle
  let sn := M.sin finalAngle
  let speed : ℚ := if e.type = .spitter then 350 else 450
  let cal : ℚ := if e.type = .spitter then 6 else 4
  let b : Bullet :=
    { x := e.x + c * e.size, y := e.y + sn * e.size
      vx := c * speed, vy := sn * speed
      damage := e.damage, isEnemy := true, life := 3, caliber := cal }
  let l : Light :=
    { x := e.x + c * e.size, y := e.y + sn * e.size, radius := 50, intensity := 7/10
      color := if e.type = .spitter then "#00ff00" else "#ff4400"
      life := 5/100, maxLife := 5/100 }
  { s with bullets := s.bullets ++ [b], lights := s.lights ++ [l], rng := r1 }

/-- The per-enemy body of `updateEnemies` for a living enemy
(lines 1150-1179): cooldown/flash decay, animation advance, then ranged
kiting (shooter/spitter) or melee pursuit.  Distance-threshold tests are the
exact squared-form embeddings of the source's `dist` comparisons. -/
def updateEnemyAlive (M : MathOracle) (dt : ℚ) (e : Enemy) (s : GameState) :
    Enemy × GameState :=
  let e := { e with
    attackCooldown := max 0 (e.attackCooldown - dt)
    hitFlash := max 0 (e.hitFlash - dt)
    animFrame := e.animFrame + dt * 8 }
  let dx := s.player.x - e.x
  let dy := s.player.y - e.y
  let dist := M.hypot dx dy
  if e.type = .shooter ∨ e.type = .spitter then
    let e :=
      if hypotGt dx dy 180 then moveEnemy s.level dt e dx dy dist
      else if hypotLt dx dy 120 then moveEnemy s.level dt e (-dx) (-dy) dist
      else e
    if hypotLt dx dy e.attackRange ∧ e.attackCooldown ≤ 0 then
      ({ e with attackCooldown := if e.type = .spitter then 2 else 12/10 },
       enemyShoot M e s)
    else (e, s)
  else
    if hypotGt dx dy e.attackRange then
      (moveEnemy s.level dt e dx dy dist, s)
    else if e.attackCooldown ≤ 0 then
      ({ e with attackCooldown := 8/10 },
       { s with
         player := { s.player with health := s.player.health - e.damage }
         hitFlash := 3/10
         screenShake := min (s.screenShake + 2) 6 })
    else (e, s)

def updateEnemiesLoop (M : MathOracle) (dt : ℚ) :
    List Enemy → GameState → List Enemy × GameState
  | [], s => ([], s)
  | e :: rest, s =>
    if e.alive then
      let (e', s1) := updateEnemyAlive M dt e s
      let (es, s2) := updateEnemiesLoop M dt rest s1
      (e' :: es, s2)
    else
      let (es, s1) := updateEnemiesLoop M dt rest s
      (e :: es, s1)

/-- `updateEnemies(dt)` (lines 1146-1181): dead enemies are skipped
(`if (!enemy.alive) continue`). -/
def updateEnemies (M : MathOracle) (dt : ℚ) (s : GameState) : GameState :=
  let r := updateEnemiesLoop M dt s.enemies s
  { r.2 with enemies := r.1 }

/-! ## Pickups (`updatePickups`, lines 1233-1273) -/

/-- The collection spark loop (lines 1251-1266); one random angle each. -/
def pickupSparkBurst (M : MathOracle) (x y : ℚ) (color : String) :
    ℕ → Rng → List Particle × Rng
  | 0, r => ([], r)
  | n + 1, r =>
    let (rangle, r1) := r.next
    let angle := rangle * M.pi * 2
    let p : Particle :=
      { x := x, y := y
        vx := M.cos angle * 60, vy := M.sin angle * 60 - 50
        life := 4/10, maxLife := 4/10, color := color, size := 4
        type := .spark, rotation := 0, rotationSpeed := 0, gravity := -100 }
    let (rest, r2) := pickupSparkBurst M x y color n r1
    (p :: rest, r2)

/-- The collision pass of `updatePickups` (lines 1234-1270): already-collected
pickups are skipped (`if (pickup.collected) continue`); a pickup within
distance 28 of the player is marked collected and applied (health capped at
`maxHealth`, armor raising `maxHealth` to at most 150 and healing capped at
the new `maxHealth`). -/
def updatePickupsLoop (M : MathOracle) : List Pickup → GameState → List Pickup × GameState
  | [], s => ([], s)
  | pk :: rest, s =>
    if pk.collected then
      let (ps, s1) := updatePickupsLoop M rest s
      (pk :: ps, s1)
    else if hypotLt (pk.x - s.player.x) (pk.y - s.player.y) 28 then
      let pk' := { pk with collected := true }
      let pl := s.player
      let pl' :=
        match pk.type with
        | .health => { pl with health := min pl.maxHealth (pl.health + pk.amount) }
        | .ammo => { pl with ammo := pl.ammo + pk.amount }
        | .armor =>
          let mh := min 150 (pl.maxHealth + 10)
          { pl with maxHealth := mh, health := min mh (pl.health + 10) }
      let color :=
        match pk.type with
        | .health => "#00ff00"
        | .ammo => "#ffaa00"
        | .armor => "#00aaff"
      let (sparks, r1) := pickupSparkBurst M pk.x pk.y color 10 s.rng
      let s1 := { s with player := pl', particles := s.particles ++ sparks, rng := r1 }
      let (ps, s2) := updatePickupsLoop M rest s1
      (pk' :: ps, s2)
    else
      let (ps, s1) := updatePickupsLoop M rest s
      (pk :: ps, s1)

/-- `updatePickups()` (lines 1233-1273): the collision pass followed by the
filtering pass that removes collected pickups. -/
def updatePickups (M : MathOracle) (s : GameState) : GameState :=
  let r := updatePickupsLoop M s.pickups s
  { r.2 with pickups := r.1.filter (fun p => ¬ p.collected) }

/-! ## Effects pools (`updateParticles` / `updateLights` / `updateDecals`,
lines 1275-1324) -/

/-- The per-particle physics of `updateParticles` (lines 1276-1296): Euler
integration, gravity, rotation, life decay, drag for blood/gibs, and the
probabilistic shell-settling roll (which consumes a random value only when
the particle is a shell with `life < 1.8`, as JS `&&` short-circuits). -/
def particleStep (dt : ℚ) (p : Particle) (r : Rng) : Particle × Rng :=
  let p := { p with
    x := p.x + p.vx * dt, y := p.y + p.vy * dt
    vy := p.vy + p.gravity * dt
    rotation := p.rotation + p.rotationSpeed * dt
    life := p.life - dt }
  let p :=
    if p.type = .blood ∨ p.type = .gib then
      { p with vx := p.vx * (98/100), vy := p.vy * (98/100) }
    else p
  if p.type = .shell ∧ p.life < 18/10 then
    let (rv, r1) := r.next
    if rv < 1/10 then
      ({ p with vx := p.vx * (1/2), vy := p.vy * (1/2), gravity := 0, rotationSpeed := 0 }, r1)
    else (p, r1)
  else (p, r)

def particlesIntegrate (dt : ℚ) : List Particle → Rng → List Particle × Rng
  | [], r => ([], r)
  | p :: rest, r =>
    let (p', r1) := particleStep dt p r
    let (ps, r2) := particlesIntegrate dt rest r1
    (p' :: ps, r2)

/-- `updateParticles(dt)` (lines 1275-1303): integrate, then cap the pool at
`MAX_PARTICLES` keeping the most recent entries (`slice(-MAX_PARTICLES)`),
then drop expired particles. -/
def updateParticles (dt : ℚ) (s : GameState) : GameState :=
  let r := particlesIntegrate dt s.particles s.rng
  let ps := r.1
  let ps := if MAX_PARTICLES < ps.length then ps.drop (ps.length - MAX_PARTICLES) else ps
  { s with particles := ps.filter (fun p => 0 < p.life), rng := r.2 }

/-- The per-light body of `updateLights` (lines 1306-1309): decrement life,
then multiply intensity by the remaining-life fraction. -/
def lightStep (dt : ℚ) (l : Light) : Light :=
  { l with life := l.life - dt, intensity := (l.life - dt) / l.maxLife * l.intensity }

/-- `updateLights(dt)` (lines 1305-1311). -/
def updateLights (dt : ℚ) (s : GameState) : GameState :=
  { s with lights := (s.lights.map (lightStep dt)).filter (fun l => 0 < l.life) }

/-- The per-decal fade of `updateDecals` (lines 1315-1319). -/
def decalFade (dt : ℚ) (d : Decal) : Decal :=
  if d.type = .blood then { d with alpha := max (2/10) (d.alpha - dt * (2/100)) } else d

/-- `updateDecals(dt)` (lines 1313-1324): fade blood decals, then cap the pool
at `MAX_DECALS` keeping the most recent entries (`slice(-MAX_DECALS)`). -/
def updateDecals (dt : ℚ) (s : GameState) : GameState :=
  let ds := s.decals.map (decalFade dt)
  { s with decals := if MAX_DECALS < ds.length then ds.drop (ds.length - MAX_DECALS) else ds }

/-! ## Wave director (`updateWaves`, lines 1326-1341) -/

/-- The wave-clear detection of `updateWaves` (lines 1327-1332): when no
living enemy remains and a wave was in progress, clear the in-progress flag
and arm the countdown at its fixed duration. -/
def waveClearCheck (s : GameState) : GameState :=
  let aliveEnemies := (s.enemies.filter (fun e => e.alive)).length
  if aliveEnemies = 0 ∧ s.waveInProgress then
    { s with waveInProgress := false, waveTimer := WAVE_SPAWN_DELAY }
  else s

/-- The countdown half of `updateWaves` (lines 1334-1340): while no wave is in
progress the timer counts down; on expiry the wave number increments and the
next wave spawns. -/
def waveCountdown (dt : ℚ) (s : GameState) : GameState :=
  if s.waveInProgress then s
  else
    let s := { s with waveTimer := s.waveTimer - dt }
    if s.waveTimer ≤ 0 then
      spawnWave { s with wave := s.wave + 1 }
    else s

/-- `updateWaves(dt)` (lines 1326-1341). -/
def updateWaves (dt : ℚ) (s : GameState) : GameState :=
  waveCountdown dt (waveClearCheck s)

/-! ## Camera (`updateCamera`, lines 1343-1357) -/

def updateCamera (dt : ℚ) (s : GameState) : GameState :=
  let targetX := s.player.x - s.viewW / 2
  let targetY := s.player.y - s.viewH / 2
  let cx := s.cameraX + (targetX - s.cameraX) * min 1 (dt * 8)
  let cy := s.cameraY + (targetY - s.cameraY) * min 1 (dt * 8)
  match s.level with
  | some lv =>
    let maxX := (lv.width : ℚ) * TILE_SIZE - s.viewW
    let maxY := (lv.height : ℚ) * TILE_SIZE - s.viewH
    { s with cameraX := max 0 (min maxX cx), cameraY := max 0 (min maxY cy) }
  | none => { s with cameraX := cx, cameraY := cy }

/-! ## The simulation tick (`update`, lines 796-820) -/

/-- `update(dt)` (lines 796-820).  With no level loaded it does nothing; with
the player's health at or below zero it sets the status to `gameover` and
returns without simulating (the audio stop and snapshot emission it also
performs are external effects).  Otherwise it runs every subsystem update in
source order and decays the screen shake.  (`updateFps`/`emitState` touch
only presentation counters and are not part of the simulated state.) -/
def update (M : MathOracle) (dt : ℚ) (s : GameState) : GameState :=
  match s.level with
  | none => s
  | some _ =>
    if s.player.health ≤ 0 then
      { s with status := Status.gameover }
    else
      let s := updatePlayer M dt s
      let s := updateEnemies M dt s
      let s := updateBullets M dt s
      let s := updatePickups M s
      let s := updateParticles dt s
      let s := updateLights dt s
      let s := updateDecals dt s
      let s := updateWaves dt s
      let s := updateCamera dt s
      { s with screenShake := max 0 (s.screenShake - dt * 10) }

/-! ## Concrete fixtures used by witnesses and counterexamples -/

/-- A 10 × 10 test level: walled border, open floor inside. -/
def testLevel : ParsedLevel :=
  { width := 10, height := 10
    tiles :=
      List.replicate 10 1 ::
        (List.replicate 8 (1 :: List.replicate 8 0 ++ [1]) ++ [List.replicate 10 1])
    playerStartX := 1, playerStartY := 1, playerStartAngle := 0 }

/-- A trivial oracle: every irrational-valued `Math` call returns 0 and
`Math.PI` is read as 3; no verified property depends on these values. -/
def testOracle : MathOracle :=
  { cos := fun _ => 0, sin := fun _ => 0, atan2 := fun _ _ => 0
    hypot := fun _ _ => 0, sqrt := fun _ => 0, pi := 3 }

/-- A deterministic stand-in for `Math.random()`: always 0. -/
def zeroRng : Rng := ⟨fun _ => 0, 0⟩

def testPlayer : Player :=
  { x := 48, y := 48, angle := 0, health := 100, maxHealth := 100, ammo := 250
    speed := 180, animFrame := 0, walkCycle := 0 }

/-- A quiescent running state on the test level. -/
def baseState : GameState :=
  { player := testPlayer, enemies := [], bullets := [], pickups := []
    particles := [], decals := [], lights := [], kills := 0, wave := 1, score := 0
    waveTimer := 2, enemiesPerWave := 8, waveInProgress := false
    status := Status.running, fireCooldown := 0, hitFlash := 0, screenShake := 0
    gameTime := 0, levelIndex := 0, level := some testLevel, input := createInputState
    cameraX := 0, cameraY := 0, mouseX := 0, mouseY := 0, viewW := 320, viewH := 320
    rng := zeroRng }

/-- A freshly spawned zombie standing at (200, 200). -/
def testZombie : Enemy :=
  { enemyTemplate EnemyType.zombie with x := 200, y := 200, alive := true }

/-- A player bullet (damage 22) resting exactly on the zombie. -/
def testBullet : Bullet :=
  { x := 200, y := 200, vx := 0, vy := 0, damage := 22, isEnemy := false
    life := 2, caliber := 3 }

/-- A player standing far outside the sampling rectangle, so that every
candidate spawn point is farther than 250 units away. -/
def farPlayer : Player := { testPlayer with x := -1000000, y := 0 }

/-- A 3 × 3 level consisting entirely of wall tiles: no spawn attempt can
ever be accepted on it. -/
def wallLevel : ParsedLevel :=
  { width := 3, height := 3, tiles := [[1, 1, 1], [1, 1, 1], [1, 1, 1]]
    playerStartX := 1, playerStartY := 1, playerStartAngle := 0 }

/-- `baseState` relocated onto `wallLevel` (wave 1, `enemiesPerWave` 8). -/
def c4State : GameState := { baseState with level := some wallLevel }

/-- `baseState` with the player far away: every spawn sample succeeds. -/
def goodState : GameState := { baseState with player := farPlayer }

/-- The test zombie after one 22-damage hit: hp 18, hit-flash pending. -/
def zombieHit : Enemy := { testZombie with hp := 18, hitFlash := 1/10 }

/-- One live zombie, one player bullet resting on it. -/
def c7aState : GameState := { baseState with enemies := [testZombie], bullets := [testBullet] }

/-- The once-hit zombie, and a second player bullet resting on it. -/
def c7bState : GameState := { baseState with enemies := [zombieHit], bullets := [testBullet] }

/-- An uncollected armor pickup 2 units from the test player. -/
def armorPickup : Pickup :=
  { x := 50, y := 48, type := PickupType.armor, amount := 25
    collected := false, bobOffset := 0 }

/-- The same pickup already marked collected. -/
def usedPickup : Pickup := { armorPickup with collected := true }

/-- Player at 95/100 health about to collect `armorPickup`. -/
def c8State : GameState :=
  { baseState with player := { testPlayer with health := 95 }, pickups := [armorPickup] }

/-- A 5-health player with a zombie standing on top of them (melee range),
mid-wave: the next tick applies 12 melee damage. -/
def c1State : GameState :=
  { baseState with
    player := { testPlayer with health := 5 }
    enemies := [{ testZombie with x := 48, y := 48 }]
    waveInProgress := true }

/-- A dead zombie (killed at −4 hp). -/
def deadZombie : Enemy := { testZombie with alive := false, hp := -4 }

/-- A state whose roster holds only the dead zombie. -/
def c10State : GameState :=
  { baseState with enemies := [deadZombie], waveInProgress := true }

/-! # Theorems -/

/-! ## Pool bookkeeping lemmas -/

theorem particlesIntegrate_cons (dt : ℚ) (p : Particle) (rest : List Particle) (r : Rng) :
    particlesIntegrate dt (p :: rest) r =
      ((particleStep dt p r).1 :: (particlesIntegrate dt rest (particleStep dt p r).2).1,
       (particlesIntegrate dt rest (particleStep dt p r).2).2) := rfl

theorem particlesIntegrate_length (dt : ℚ) :
    ∀ (ps : List Particle) (r : Rng), ((particlesIntegrate dt ps r).1).length = ps.length
  | [], _ => rfl
  | p :: rest, r => by
    rw [particlesIntegrate_cons]
    exact congrArg Nat.succ (particlesIntegrate_length dt rest _)

/-- The `slice(-cap)` trimming pattern: the kept part is a suffix of length
`min length cap`; what is dropped is an initial segment (the oldest
entries, since the pools append new entries at the end). -/
theorem sliceCap_spec {α : Type} (l : List α) (cap : ℕ) :
    ∃ dropped kept, l = dropped ++ kept ∧ kept.length = min l.length cap ∧
      (if cap < l.length then l.drop (l.length - cap) else l) = kept := by
  by_cases h : cap < l.length
  · refine ⟨l.take (l.length - cap), l.drop (l.length - cap),
      (List.take_append_drop _ l).symm, ?_, by simp [h]⟩
    simp only [List.length_drop]
    omega
  · refine ⟨[], l, rfl, ?_, by simp [h]⟩
    omega

/-- C2: after every per-tick pool update, the particle pool holds at most
`MAX_PARTICLES` = 500 entries and the decal pool at most `MAX_DECALS` = 200;
when a pool exceeds its capacity, the oldest entries are the ones dropped:
the retained block is a terminal segment (of length `min length capacity`)
of the per-entry-updated pool, i.e. exactly the most recently appended
entries (particles are additionally purged of expired entries afterwards,
as in the source). -/
theorem claim_C2 (dt : ℚ) (s : GameState) :
    (updateParticles dt s).particles.length ≤ MAX_PARTICLES ∧
    (updateDecals dt s).decals.length ≤ MAX_DECALS ∧
    (∃ dropped kept,
      (particlesIntegrate dt s.particles s.rng).1 = dropped ++ kept ∧
      kept.length = min s.particles.length MAX_PARTICLES ∧
      (updateParticles dt s).particles = kept.filter (fun p => 0 < p.life)) ∧
    (∃ dropped kept,
      s.decals.map (decalFade dt) = dropped ++ kept ∧
      kept.length = min s.decals.length MAX_DECALS ∧
      (updateDecals dt s).decals = kept) := by
  obtain ⟨pd, pk, hpsplit, hplen, hpif⟩ :=
    sliceCap_spec ((particlesIntegrate dt s.particles s.rng).1) MAX_PARTICLES
  obtain ⟨dd, dk, hdsplit, hdlen, hdif⟩ :=
    sliceCap_spec (s.decals.map (decalFade dt)) MAX_DECALS
  rw [particlesIntegrate_length] at hpif hplen
  rw [List.length_map] at hdif hdlen
  have hpe : (updateParticles dt s).particles = pk.filter (fun p => 0 < p.life) := by
    simp only [updateParticles, particlesIntegrate_length]
    rw [hpif]
  have hde : (updateDecals dt s).decals = dk := by
    simp only [updateDecals, List.length_map]
    rw [hdif]
  refine ⟨?_, ?_, ⟨pd, pk, hpsplit, hplen, hpe⟩, ⟨dd, dk, hdsplit, hdlen, hde⟩⟩
  · rw [hpe]
    calc (pk.filter (fun p => 0 < p.life)).length ≤ pk.length := List.length_filter_le _ _
      _ ≤ MAX_PARTICLES := by rw [hplen]; exact min_le_right _ _
  · rw [hde, hdlen]
    exact min_le_right _ _

/-! ## Light decay (C6) -/

theorem lightStep_filter_comm (dt : ℚ) (ls : List Light) :
    (ls.map (lightStep dt)).filter (fun l => 0 < l.life) =
      (ls.filter (fun l => dt < l.life)).map (lightStep dt) := by
  induction ls with
  | nil => rfl
  | cons l rest ih =>
    simp only [List.map_cons, List.filter_cons]
    by_cases h : dt < l.life
    · have h0 : 0 < (lightStep dt l).life := by
        simpa [lightStep, sub_pos] using h
      simp [h, h0, ih]
    · have h0 : ¬ 0 < (lightStep dt l).life := by
        simpa [lightStep, sub_pos] using h
      simp [h, h0, ih]

/-- C6: each tick, every surviving light's life decreases by `dt` and its
intensity is rescaled to the remaining-life fraction of its (current)
intensity; lights whose decremented life is at or below zero are removed
from the collection that same tick.  The survivors are exactly the lights
with `dt < life`, each updated by the source's per-light step. -/
theorem claim_C6 (dt : ℚ) (s : GameState) :
    (updateLights dt s).lights =
      (s.lights.filter (fun l => dt < l.life)).map
        (fun l => { l with
                    life := l.life - dt
                    intensity := (l.life - dt) / l.maxLife * l.intensity }) :=
  lightStep_filter_comm dt s.lights

/-! ## Frame delta clamping (C9) -/

/-- C9 counterexample: the claim asserts `0 < dt` for every tick, but the
code only clamps from above.  `start()` (line 578) invokes the first tick
with `time = lastTime` (`this.loop(this.lastTime)` right after
`this.lastTime = performance.now()`), for which the computed delta is 0,
not positive. -/
theorem claim_C9_counterexample :
    clampDt 100 100 = 0 ∧ ¬ (0 < clampDt 100 100) := by
  constructor
  · show min (1/20 : ℚ) ((100 - 100) / 1000) = 0
    norm_num
  · show ¬ (0 < min (1/20 : ℚ) ((100 - 100) / 1000))
    norm_num

/-- C9 (amended): the delta time passed to the simulation update always
satisfies `dt ≤ 0.05`, and it is strictly positive whenever the host's
timestamp strictly increased since the previous frame; the code itself does
not rule out `dt ≤ 0` (the first frame after `start()` runs with
`time = lastTime`, hence `dt = 0`). -/
theorem claim_C9_amended (time lastTime : ℚ) :
    clampDt time lastTime ≤ 1/20 ∧
    (lastTime < time → 0 < clampDt time lastTime) := by
  refine ⟨min_le_left _ _, fun h => ?_⟩
  have hpos : 0 < (time - lastTime) / 1000 := by
    have := sub_pos.mpr h
    positivity
  exact lt_min (by norm_num) hpos

theorem claim_C9_amended_witness :
    clampDt 116 100 ≤ 1/20 ∧ 0 < clampDt 116 100 :=
  ⟨(claim_C9_amended 116 100).1, (claim_C9_amended 116 100).2 (by norm_num)⟩

/-! ## Spawn-point sampling (C5) -/

@[simp] theorem Rng.mk_vals (v : ℕ → ℚ) (i : ℕ) : (Rng.mk v i).vals = v := rfl

@[simp] theorem Rng.mk_idx (v : ℕ → ℚ) (i : ℕ) : (Rng.mk v i).idx = i := rfl

theorem spawnLoop_succ (level : ParsedLevel) (pl : Player) (n : ℕ) (r : Rng) :
    spawnLoop level pl (n + 1) r =
      (if spawnAccept level pl (spawnCandidate level (r.vals r.idx) (r.vals (r.idx + 1))).1
            (spawnCandidate level (r.vals r.idx) (r.vals (r.idx + 1))).2 then
        (some (spawnCandidate level (r.vals r.idx) (r.vals (r.idx + 1))), ⟨r.vals, r.idx + 2⟩)
      else spawnLoop level pl n ⟨r.vals, r.idx + 2⟩) := rfl

/-- Every point the sampler returns passed the acceptance test: it lies on a
floor tile and strictly farther than 250 units from the player. -/
theorem spawnLoop_sound (level : ParsedLevel) (pl : Player) :
    ∀ (n : ℕ) (r : Rng) (x y : ℚ) (r' : Rng),
      spawnLoop level pl n r = (some (x, y), r') →
      tileAt level ⌊x / TILE_SIZE⌋ ⌊y / TILE_SIZE⌋ = some 0 ∧
      hypotGt (x - pl.x) (y - pl.y) 250 = true
  | 0, r, x, y, r', h => by cases h
  | n + 1, r, x, y, r', h => by
    rw [spawnLoop_succ] at h
    by_cases hacc : spawnAccept level pl
        (spawnCandidate level (r.vals r.idx) (r.vals (r.idx + 1))).1
        (spawnCandidate level (r.vals r.idx) (r.vals (r.idx + 1))).2
    · rw [if_pos hacc] at h
      obtain ⟨h1, -⟩ := Prod.mk.injEq _ _ _ _ ▸ h
      obtain ⟨hx, hy⟩ := Prod.mk.injEq _ _ _ _ ▸ Option.some.injEq _ _ ▸ h1
      subst hx
      subst hy
      unfold spawnAccept at hacc
      obtain ⟨ht, hd⟩ := Bool.and_eq_true _ _ ▸ hacc
      exact ⟨beq_iff_eq.mp ht, hd⟩
    · rw [if_neg hacc] at h
      exact spawnLoop_sound level pl n _ x y r' h

/-- The sampler draws exactly two random values per attempt and makes at most
`n` attempts: the stream cursor advances by at most `2 n`, and the stream
itself is untouched. -/
theorem spawnLoop_rng (level : ParsedLevel) (pl : Player) :
    ∀ (n : ℕ) (r : Rng),
      (spawnLoop level pl n r).2.idx ≤ r.idx + 2 * n ∧
      (spawnLoop level pl n r).2.vals = r.vals
  | 0, r => ⟨Nat.le_add_right _ _, rfl⟩
  | n + 1, r => by
    rw [spawnLoop_succ]
    by_cases hacc : spawnAccept level pl
        (spawnCandidate level (r.vals r.idx) (r.vals (r.idx + 1))).1
        (spawnCandidate level (r.vals r.idx) (r.vals (r.idx + 1))).2
    · rw [if_pos hacc]
      refine ⟨?_, rfl⟩
      show r.idx + 2 ≤ r.idx + 2 * (n + 1)
      omega
    · rw [if_neg hacc]
      obtain ⟨h1, h2⟩ := spawnLoop_rng level pl n ⟨r.vals, r.idx + 2⟩
      simp only [Rng.mk_idx, Rng.mk_vals] at h1 h2
      exact ⟨by omega, h2⟩

/-- When every one of the `n` attempts fails the acceptance test, the sampler
returns `none` (and in particular never throws: it is a total function). -/
theorem spawnLoop_exhaust (level : ParsedLevel) (pl : Player) :
    ∀ (n : ℕ) (r : Rng),
      (∀ k, k < n →
        spawnAttemptOk level pl (r.vals (r.idx + 2 * k)) (r.vals (r.idx + 2 * k + 1)) = false) →
      (spawnLoop level pl n r).1 = none
  | 0, _, _ => rfl
  | n + 1, r, h => by
    rw [spawnLoop_succ]
    have h0 := h 0 (Nat.succ_pos n)
    have hr0 : r.idx + 2 * 0 = r.idx := by omega
    have hr1 : r.idx + 2 * 0 + 1 = r.idx + 1 := by omega
    rw [hr0, hr1] at h0
    rw [if_neg (by simpa [spawnAttemptOk] using h0)]
    refine spawnLoop_exhaust level pl n ⟨r.vals, r.idx + 2⟩ (fun k hk => ?_)
    have hkk := h (k + 1) (by omega)
    have e1 : r.idx + 2 * (k + 1) = r.idx + 2 + 2 * k := by omega
    rw [e1] at hkk
    simpa using hkk

/-- When the very first attempt is accepted, the sampler returns its candidate
and has consumed exactly two stream values. -/
theorem spawnLoop_first (level : ParsedLevel) (pl : Player) (n : ℕ) (r : Rng)
    (h : spawnAttemptOk level pl (r.vals r.idx) (r.vals (r.idx + 1)) = true) :
    spawnLoop level pl (n + 1) r =
      (some (spawnCandidate level (r.vals r.idx) (r.vals (r.idx + 1))), ⟨r.vals, r.idx + 2⟩) := by
  rw [spawnLoop_succ, if_pos (by simpa [spawnAttemptOk] using h)]

/-- One unfolding step of the wave-spawn loop, in terms of the sampler's
result. -/
theorem spawnWaveLoop_succ (level : ParsedLevel) (pl : Player) (types : List EnemyType)
    (n : ℕ) (r : Rng) :
    spawnWaveLoop level pl types (n + 1) r =
      (match (spawnLoop level pl 50 r).1 with
       | some (x, y) =>
         let r1 := (spawnLoop level pl 50 r).2
         let rt := r1.vals r1.idx
         let t := (types.get? (⌊rt * (types.length : ℚ)⌋).toNat).getD .zombie
         let er := createEnemy x y t ⟨r1.vals, r1.idx + 1⟩
         ((spawnWaveLoop level pl types n er.2).1.cons er.1,
          (spawnWaveLoop level pl types n er.2).2)
       | none => spawnWaveLoop level pl types n (spawnLoop level pl 50 r).2) := rfl

/-- The wave-spawn loop never creates more enemies than its iteration count:
a failed sample skips that single spawn instead of failing. -/
theorem spawnWaveLoop_length_le (level : ParsedLevel) (pl : Player) (types : List EnemyType) :
    ∀ (n : ℕ) (r : Rng), ((spawnWaveLoop level pl types n r).1).length ≤ n
  | 0, _ => Nat.le_refl 0
  | n + 1, r => by
    rw [spawnWaveLoop_succ]
    rcases hs : (spawnLoop level pl 50 r).1 with - | ⟨x, y⟩
    · exact Nat.le_succ_of_le (spawnWaveLoop_length_le level pl types n _)
    · exact Nat.succ_le_succ (spawnWaveLoop_length_le level pl types n _)

/-- C5: every point returned by the 50-attempt sampler lies on a floor tile
at distance strictly greater than 250 from the player; the sampler consumes
at most two random draws per attempt (hence at most 100 for its 50
attempts); when all 50 attempts fail it returns `none` rather than
throwing; and the wave-spawn caller skips failed samples, never producing
more enemies than its requested count. -/
theorem claim_C5 (level : ParsedLevel) (pl : Player) (r : Rng) :
    (∀ (x y : ℚ) (r' : Rng), spawnLoop level pl 50 r = (some (x, y), r') →
      tileAt level ⌊x / TILE_SIZE⌋ ⌊y / TILE_SIZE⌋ = some 0 ∧
      hypotGt (x - pl.x) (y - pl.y) 250 = true) ∧
    (spawnLoop level pl 50 r).2.idx ≤ r.idx + 2 * 50 ∧
    ((∀ k, k < 50 →
        spawnAttemptOk level pl (r.vals (r.idx + 2 * k)) (r.vals (r.idx + 2 * k + 1)) = false) →
      (spawnLoop level pl 50 r).1 = none) ∧
    (∀ (types : List EnemyType) (n : ℕ), ((spawnWaveLoop level pl types n r).1).length ≤ n) :=
  ⟨fun x y r' h => spawnLoop_sound level pl 50 r x y r' h,
   (spawnLoop_rng level pl 50 r).1,
   fun h => spawnLoop_exhaust level pl 50 r h,
   fun types n => spawnWaveLoop_length_le level pl types n r⟩

theorem claim_C5_witness :
    (tileAt testLevel ⌊(32 : ℚ) / TILE_SIZE⌋ ⌊(32 : ℚ) / TILE_SIZE⌋ = some 0 ∧
      hypotGt ((32 : ℚ) - farPlayer.x) ((32 : ℚ) - farPlayer.y) 250 = true) ∧
    (spawnLoop testLevel testPlayer 50 zeroRng).1 = none ∧
    (spawnLoop testLevel testPlayer 50 zeroRng).2.idx ≤ zeroRng.idx + 2 * 50 := by
  have hfirst : spawnAttemptOk testLevel farPlayer (zeroRng.vals zeroRng.idx)
      (zeroRng.vals (zeroRng.idx + 1)) = true := by with_unfolding_all decide
  have hcand : spawnCandidate testLevel (zeroRng.vals zeroRng.idx)
      (zeroRng.vals (zeroRng.idx + 1)) = ((32 : ℚ), (32 : ℚ)) := by with_unfolding_all decide
  have hsome : spawnLoop testLevel farPlayer 50 zeroRng =
      (some ((32 : ℚ), (32 : ℚ)), ⟨zeroRng.vals, zeroRng.idx + 2⟩) := by
    rw [spawnLoop_first testLevel farPlayer 49 zeroRng hfirst, hcand]
  refine ⟨(claim_C5 testLevel farPlayer zeroRng).1 32 32 ⟨zeroRng.vals, zeroRng.idx + 2⟩ hsome,
    (claim_C5 testLevel testPlayer zeroRng).2.2.1 (fun k _ => by
      show spawnAttemptOk testLevel testPlayer 0 0 = false
      with_unfolding_all decide),
    (claim_C5 testLevel testPlayer zeroRng).2.1⟩

/-! ## Wave size (C4) -/

theorem Rng.eta (r : Rng) : Rng.mk r.vals r.idx = r := rfl

theorem createEnemy_rng (x y : ℚ) (t : EnemyType) (r : Rng) :
    (createEnemy x y t r).2 = ⟨r.vals, r.idx + 2⟩ := rfl

/-- No row of `wallLevel` contains a floor tile. -/
theorem wallLevel_row (j : ℕ) : List.get? [1, 1, 1] j ≠ some 0 := by
  match j with
  | 0 => simp
  | 1 => simp
  | 2 => simp
  | n + 3 => simp [List.get?]

/-- `wallLevel` has no floor tile at all, so no spawn attempt is accepted. -/
theorem wallLevel_attempt (pl : Player) (rx ry : ℚ) :
    spawnAttemptOk wallLevel pl rx ry = false := by
  unfold spawnAttemptOk spawnAccept
  have htile : ∀ tx ty : ℤ, tileAt wallLevel tx ty ≠ some 0 := by
    intro tx ty
    unfold tileAt
    split
    · show (List.get? [[1, 1, 1], [1, 1, 1], [1, 1, 1]] ty.toNat).bind
        (fun row => row.get? tx.toNat) ≠ some 0
      match hty : ty.toNat with
      | 0 => simpa using wallLevel_row tx.toNat
      | 1 => simpa using wallLevel_row tx.toNat
      | 2 => simpa using wallLevel_row tx.toNat
      | n + 3 => simp [List.get?]
    · simp
  rw [Bool.and_eq_false_iff]
  exact Or.inl (beq_eq_false_iff_ne.mpr (htile _ _))

/-- On `wallLevel` the sampler always returns `none`. -/
theorem spawnLoop_wall (pl : Player) (r : Rng) :
    (spawnLoop wallLevel pl 50 r).1 = none :=
  spawnLoop_exhaust wallLevel pl 50 r (fun _ _ => wallLevel_attempt pl _ _)

/-- On `wallLevel` no enemy is ever created by the wave-spawn loop. -/
theorem spawnWaveLoop_wall (pl : Player) (types : List EnemyType) :
    ∀ (n : ℕ) (r : Rng), (spawnWaveLoop wallLevel pl types n r).1 = []
  | 0, _ => rfl
  | n + 1, r => by
    rw [spawnWaveLoop_succ]
    simp only [spawnLoop_wall pl r]
    exact spawnWaveLoop_wall pl types n _

/-- C4 counterexample: the claim says the number of enemies created equals
`enemiesPerWave + floor(N * 2)`; but `spawnWave` skips every spawn whose
position sample fails, so the created count can be smaller.  On a level
with no reachable floor tile (or whenever all 50 attempts land badly),
wave 1 of a level with `enemiesPerWave = 8` creates 0 enemies, not 10. -/
theorem claim_C4_counterexample :
    c4State.enemiesPerWave + 2 * c4State.wave = 10 ∧
    (spawnWave c4State).enemies.length = 0 := by
  constructor
  · rfl
  · have hl : c4State.level = some wallLevel := rfl
    simp only [spawnWave, hl]
    simp only [spawnWaveLoop_wall]
    rfl

theorem spawnWave_enemiesPerWave (s : GameState) :
    (spawnWave s).enemiesPerWave = s.enemiesPerWave := by
  rcases hl : s.level with - | lv <;> simp only [spawnWave, hl]

theorem spawnPickups_enemiesPerWave (M : MathOracle) (s : GameState) :
    (spawnPickups M s).enemiesPerWave = s.enemiesPerWave := by
  rcases hl : s.level with - | lv <;> simp only [spawnPickups, hl]

/-- Under a universally succeeding sampler, the wave-spawn loop creates one
enemy per iteration. -/
theorem spawnWaveLoop_length_eq (level : ParsedLevel) (pl : Player) (types : List EnemyType)
    (v : ℕ → ℚ) (hv : ∀ i, spawnAttemptOk level pl (v i) (v (i + 1)) = true) :
    ∀ (n k : ℕ), ((spawnWaveLoop level pl types n ⟨v, k⟩).1).length = n
  | 0, _ => rfl
  | n + 1, k => by
    rw [spawnWaveLoop_succ]
    have h1 : spawnLoop level pl 50 ⟨v, k⟩ =
        (some (spawnCandidate level (v k) (v (k + 1))), ⟨v, k + 2⟩) :=
      spawnLoop_first level pl 49 ⟨v, k⟩ (hv k)
    rw [h1]
    show ((spawnWaveLoop level pl types n (createEnemy _ _ _ ⟨v, k + 3⟩).2).1.cons _).length = n + 1
    rw [createEnemy_rng]
    simp only [List.length_cons, Rng.mk_vals, Rng.mk_idx]
    exact congrArg Nat.succ (spawnWaveLoop_length_eq level pl types v hv n (k + 3 + 2))

/-- `spawnWave` never creates more enemies than `enemiesPerWave + 2 · wave`. -/
theorem spawnWave_length_le (t : GameState) :
    (spawnWave t).enemies.length ≤ t.enemies.length + (t.enemiesPerWave + 2 * t.wave) := by
  rcases hl : t.level with - | lv
  · simp only [spawnWave, hl]
    omega
  · simp only [spawnWave, hl, List.length_append]
    have := spawnWaveLoop_length_le lv t.player (waveTypes t.wave)
      (t.enemiesPerWave + 2 * t.wave) t.rng
    omega

/-- Under a universally succeeding sampler, `spawnWave` creates exactly
`enemiesPerWave + 2 · wave` enemies. -/
theorem spawnWave_length_eq (t : GameState) (lv : ParsedLevel) (hl : t.level = some lv)
    (hv : ∀ i, spawnAttemptOk lv t.player (t.rng.vals i) (t.rng.vals (i + 1)) = true) :
    (spawnWave t).enemies.length = t.enemies.length + (t.enemiesPerWave + 2 * t.wave) := by
  simp only [spawnWave, hl, List.length_append]
  have h := spawnWaveLoop_length_eq lv t.player (waveTypes t.wave) t.rng.vals hv
    (t.enemiesPerWave + 2 * t.wave) t.rng.idx
  rw [Rng.eta] at h
  omega

/-- C4 (amended): `loadLevel` fixes `enemiesPerWave = 8 + levelIndex · 4`, and
`spawnWave` for wave `N` makes exactly `enemiesPerWave + 2 N` spawn
attempts, each creating one enemy when its position sample succeeds and
skipping that spawn otherwise; hence the created count is at most
`enemiesPerWave + 2 N`, with equality whenever every sample succeeds (in
particular 10 enemies for level index 0, wave 1). -/
theorem claim_C4_amended (M : MathOracle) (levels : ℕ → ParsedLevel) (index : ℕ)
    (s : GameState) :
    (loadLevelWith M levels index s).enemiesPerWave = 8 + index * 4 ∧
    (∀ t : GameState,
      (spawnWave t).enemies.length ≤ t.enemies.length + (t.enemiesPerWave + 2 * t.wave)) ∧
    (∀ (t : GameState) (lv : ParsedLevel), t.level = some lv →
      (∀ i, spawnAttemptOk lv t.player (t.rng.vals i) (t.rng.vals (i + 1)) = true) →
      (spawnWave t).enemies.length = t.enemies.length + (t.enemiesPerWave + 2 * t.wave)) := by
  refine ⟨?_, spawnWave_length_le, fun t lv hl hv => spawnWave_length_eq t lv hl hv⟩
  unfold loadLevelWith
  rw [spawnPickups_enemiesPerWave, spawnWave_enemiesPerWave]

theorem claim_C4_amended_witness :
    (loadLevelWith testOracle (fun _ => testLevel) 0 baseState).enemiesPerWave = 8 + 0 * 4 ∧
    (spawnWave goodState).enemies.length =
      goodState.enemies.length + (goodState.enemiesPerWave + 2 * goodState.wave) :=
  ⟨(claim_C4_amended testOracle (fun _ => testLevel) 0 baseState).1,
   (claim_C4_amended testOracle (fun _ => testLevel) 0 baseState).2.2 goodState testLevel rfl
     (fun i => by
        show spawnAttemptOk testLevel farPlayer 0 0 = true
        with_unfolding_all decide)⟩

/-! ## Wave progression (C3) -/

theorem spawnWave_wave (s : GameState) : (spawnWave s).wave = s.wave := by
  rcases hl : s.level with - | lv <;> simp only [spawnWave, hl]

theorem waveClearCheck_busy (s : GameState) (_h : s.waveInProgress = true)
    (ha : (s.enemies.filter (fun e => e.alive)).length ≠ 0) :
    waveClearCheck s = s := by
  unfold waveClearCheck
  rw [if_neg (fun hc => ha hc.1)]

theorem waveClearCheck_clear (s : GameState) (h : s.waveInProgress = true)
    (ha : (s.enemies.filter (fun e => e.alive)).length = 0) :
    waveClearCheck s = { s with waveInProgress := false, waveTimer := WAVE_SPAWN_DELAY } := by
  unfold waveClearCheck
  rw [if_pos ⟨ha, h⟩]

theorem waveClearCheck_idle (s : GameState) (h : s.waveInProgress = false) :
    waveClearCheck s = s := by
  unfold waveClearCheck
  rw [if_neg (fun hc => by rw [h] at hc; cases hc.2)]

theorem waveCountdown_busy (dt : ℚ) (s : GameState) (h : s.waveInProgress = true) :
    waveCountdown dt s = s := by
  unfold waveCountdown
  rw [if_pos h]

theorem waveCountdown_tick (dt : ℚ) (s : GameState) (h : s.waveInProgress = false)
    (ht : ¬ s.waveTimer - dt ≤ 0) :
    waveCountdown dt s = { s with waveTimer := s.waveTimer - dt } := by
  unfold waveCountdown
  rw [if_neg (fun hc => by rw [h] at hc; cases hc)]
  exact if_neg ht

theorem waveCountdown_spawn (dt : ℚ) (s : GameState) (h : s.waveInProgress = false)
    (ht : s.waveTimer - dt ≤ 0) :
    waveCountdown dt s =
      spawnWave { s with waveTimer := s.waveTimer - dt, wave := s.wave + 1 } := by
  unfold waveCountdown
  rw [if_neg (fun hc => by rw [h] at hc; cases hc)]
  exact if_pos ht

/-- C3: a new wave never pre-empts a wave in progress.  While living enemies
remain, `updateWaves` changes nothing.  In the tick in which the last
living enemy is gone, the in-progress flag clears and the countdown is set
to its fixed duration `WAVE_SPAWN_DELAY = 3` (and then starts counting that
same tick, ending the tick at `3 - dt > 0`, so no spawn can occur in the
death tick); the wave counter and the enemy roster are untouched.  The
wave number increments — by exactly 1, together with a `spawnWave` — only
in a tick that starts with no wave in progress and whose decremented
countdown has reached ≤ 0. -/
theorem claim_C3 (dt : ℚ) (s : GameState) (hdt0 : 0 < dt) (hdt : dt ≤ 1/20) :
    (s.waveInProgress = true → (s.enemies.filter (fun e => e.alive)).length ≠ 0 →
      updateWaves dt s = s) ∧
    (s.waveInProgress = true → (s.enemies.filter (fun e => e.alive)).length = 0 →
      (waveClearCheck s).waveInProgress = false ∧
      (waveClearCheck s).waveTimer = WAVE_SPAWN_DELAY ∧
      (updateWaves dt s).waveInProgress = false ∧
      (updateWaves dt s).waveTimer = WAVE_SPAWN_DELAY - dt ∧
      (updateWaves dt s).wave = s.wave ∧
      (updateWaves dt s).enemies = s.enemies) ∧
    ((updateWaves dt s).wave ≠ s.wave →
      s.waveInProgress = false ∧ s.waveTimer - dt ≤ 0 ∧
      (updateWaves dt s).wave = s.wave + 1 ∧
      updateWaves dt s =
        spawnWave { s with waveTimer := s.waveTimer - dt, wave := s.wave + 1 }) := by
  have hpos : ¬ WAVE_SPAWN_DELAY - dt ≤ 0 := by
    unfold WAVE_SPAWN_DELAY
    intro hc
    linarith
  refine ⟨fun hw ha => ?_, fun hw ha => ?_, fun hne => ?_⟩
  · unfold updateWaves
    rw [waveClearCheck_busy s hw ha, waveCountdown_busy dt s hw]
  · have hclear := waveClearCheck_clear s hw ha
    have hstep : updateWaves dt s =
        { s with waveInProgress := false, waveTimer := WAVE_SPAWN_DELAY - dt } := by
      unfold updateWaves
      rw [hclear, waveCountdown_tick dt _ rfl (by exact hpos)]
    rw [hclear, hstep]
    exact ⟨rfl, rfl, rfl, rfl, rfl, rfl⟩
  · rcases hb : s.waveInProgress with - | -
    · -- no wave in progress: the countdown half decides
      have hclear := waveClearCheck_idle s hb
      by_cases ht : s.waveTimer - dt ≤ 0
      · have hstep : updateWaves dt s =
            spawnWave { s with waveTimer := s.waveTimer - dt, wave := s.wave + 1 } := by
          unfold updateWaves
          rw [hclear, waveCountdown_spawn dt s hb ht]
        rw [hb] at hstep
        refine ⟨rfl, ht, ?_, hstep⟩
        rw [hstep, spawnWave_wave]
      · exfalso
        apply hne
        unfold updateWaves
        rw [hclear, waveCountdown_tick dt s hb ht]
    · -- wave in progress: the wave counter cannot change this tick
      exfalso
      apply hne
      by_cases ha : (s.enemies.filter (fun e => e.alive)).length = 0
      · unfold updateWaves
        rw [waveClearCheck_clear s hb ha, waveCountdown_tick dt _ rfl (by exact hpos)]
      · unfold updateWaves
        rw [waveClearCheck_busy s hb ha, waveCountdown_busy dt s hb]

theorem claim_C3_witness :
    (updateWaves (1/100) { baseState with waveInProgress := true }).waveInProgress = false ∧
    (updateWaves (1/100) { baseState with waveInProgress := true }).waveTimer =
      WAVE_SPAWN_DELAY - 1/100 ∧
    (updateWaves (1/100) { baseState with waveInProgress := true }).wave =
      { baseState with waveInProgress := true }.wave :=
  (fun h => ⟨h.2.2.1, h.2.2.2.1, h.2.2.2.2.1⟩)
    ((claim_C3 (1/100) { baseState with waveInProgress := true } (by norm_num)
      (by norm_num)).2.1 rfl rfl)

/-! ## Bullet-enemy hits and kill processing (C7) -/

theorem killEnemy_fst (M : MathOracle) (e : Enemy) (s : GameState) :
    (killEnemy M e s).1 = { e with alive := false } := rfl

theorem killEnemy_kills (M : MathOracle) (e : Enemy) (s : GameState) :
    (killEnemy M e s).2.kills = s.kills + 1 := rfl

theorem killEnemy_score (M : MathOracle) (e : Enemy) (s : GameState) :
    (killEnemy M e s).2.score = s.score + getEnemyScore e.type := rfl

theorem spawnBloodEffect_kills (M : MathOracle) (x y vx vy : ℚ) (s : GameState) :
    (spawnBloodEffect M x y vx vy s).kills = s.kills := rfl

theorem spawnBloodEffect_score (M : MathOracle) (x y vx vy : ℚ) (s : GameState) :
    (spawnBloodEffect M x y vx vy s).score = s.score := rfl

/-- One unfolding step of the per-bullet enemy scan. -/
theorem bulletEnemyLoop_cons (M : MathOracle) (b : Bullet) (e : Enemy) (rest : List Enemy)
    (s : GameState) :
    bulletEnemyLoop M b (e :: rest) s =
      (if e.alive then
        if hypotLt (b.x - e.x) (b.y - e.y) e.size then
          let e1 := { e with hp := e.hp - b.damage, hitFlash := 1/10 }
          let s1 := spawnBloodEffect M b.x b.y b.vx b.vy s
          if e1.hp ≤ 0 then
            ((killEnemy M e1 s1).1 :: rest, { b with life := 0 }, (killEnemy M e1 s1).2)
          else (e1 :: rest, { b with life := 0 }, s1)
        else
          ((bulletEnemyLoop M b rest s).1.cons e, (bulletEnemyLoop M b rest s).2.1,
            (bulletEnemyLoop M b rest s).2.2)
      else
        ((bulletEnemyLoop M b rest s).1.cons e, (bulletEnemyLoop M b rest s).2.1,
          (bulletEnemyLoop M b rest s).2.2)) := rfl

/-- C7: when a player bullet lies within a living enemy's size radius at the
head of the scan, the enemy loses exactly the bullet's damage in hp, its
hit-flash timer becomes 0.1 > 0, the bullet's life is zeroed (so the bullet
is dropped by `updateBullets`' filter), the remaining enemies are left to
later bullets untouched, and — exactly when the resulting hp is ≤ 0 — the
kill is processed once: `alive` becomes false, `kills` rises by 1 and the
per-type score (10 for a zombie) is added.  Concretely, on the test level:
a 40-hp zombie hit by a 22-damage player bullet ends the tick with hp 18,
alive, hit-flash 0.1 and no bullet left; hitting the 18-hp zombie again
drives hp to −4 ≤ 0, sets alive to false, makes kills 1 and score 10. -/
theorem claim_C7 :
    (∀ (M : MathOracle) (b : Bullet) (e : Enemy) (rest : List Enemy) (s : GameState),
      e.alive = true →
      hypotLt (b.x - e.x) (b.y - e.y) e.size = true →
      (bulletEnemyLoop M b (e :: rest) s).2.1 = { b with life := 0 } ∧
      ((bulletEnemyLoop M b (e :: rest) s).1.get? 0).map Enemy.hp = some (e.hp - b.damage) ∧
      ((bulletEnemyLoop M b (e :: rest) s).1.get? 0).map Enemy.hitFlash = some (1/10) ∧
      ((bulletEnemyLoop M b (e :: rest) s).1.get? 0).map Enemy.alive =
        some (if e.hp - b.damage ≤ 0 then false else true) ∧
      (bulletEnemyLoop M b (e :: rest) s).1.tail = rest ∧
      (bulletEnemyLoop M b (e :: rest) s).2.2.kills =
        (if e.hp - b.damage ≤ 0 then s.kills + 1 else s.kills) ∧
      (bulletEnemyLoop M b (e :: rest) s).2.2.score =
        (if e.hp - b.damage ≤ 0 then s.score + getEnemyScore e.type else s.score)) ∧
    (((updateBullets testOracle (1/100) c7aState).enemies.get? 0).map Enemy.hp = some 18 ∧
      ((updateBullets testOracle (1/100) c7aState).enemies.get? 0).map Enemy.alive = some true ∧
      ((updateBullets testOracle (1/100) c7aState).enemies.get? 0).map Enemy.hitFlash =
        some (1/10) ∧
      (updateBullets testOracle (1/100) c7aState).bullets = [] ∧
      (updateBullets testOracle (1/100) c7aState).kills = 0 ∧
      (updateBullets testOracle (1/100) c7aState).score = 0) ∧
    (((updateBullets testOracle (1/100) c7bState).enemies.get? 0).map Enemy.hp = some (-4) ∧
      ((updateBullets testOracle (1/100) c7bState).enemies.get? 0).map Enemy.alive =
        some false ∧
      (updateBullets testOracle (1/100) c7bState).bullets = [] ∧
      (updateBullets testOracle (1/100) c7bState).kills = 1 ∧
      (updateBullets testOracle (1/100) c7bState).score = 10) := by
  refine ⟨fun M b e rest s ha hin => ?_, ?_, ?_⟩
  · rw [bulletEnemyLoop_cons, if_pos ha, if_pos hin]
    show (if e.hp - b.damage ≤ 0 then _ else _ : List Enemy × Bullet × GameState).2.1 =
        _ ∧ _
    by_cases hk : e.hp - b.damage ≤ 0
    · rw [if_pos hk]
      refine ⟨rfl, rfl, rfl, ?_, rfl, ?_, ?_⟩
      · rw [if_pos hk]
        rfl
      · rw [if_pos hk]
        exact killEnemy_kills ..
      · rw [if_pos hk]
        exact killEnemy_score ..
    · rw [if_neg hk]
      refine ⟨rfl, rfl, rfl, ?_, rfl, ?_, ?_⟩
      · rw [if_neg hk]
        simp [ha]
      · rw [if_neg hk]
        exact spawnBloodEffect_kills ..
      · rw [if_neg hk]
        exact spawnBloodEffect_score ..
  · refine ⟨?_, ?_, ?_, ?_, ?_, ?_⟩ <;> with_unfolding_all decide
  · refine ⟨?_, ?_, ?_, ?_, ?_⟩ <;> with_unfolding_all decide

theorem claim_C7_witness :
    (bulletEnemyLoop testOracle testBullet [testZombie] baseState).2.1 =
      { testBullet with life := 0 } ∧
    ((bulletEnemyLoop testOracle testBullet [testZombie] baseState).1.get? 0).map Enemy.hp =
      some (testZombie.hp - testBullet.damage) :=
  (fun h => ⟨h.1, h.2.1⟩)
    (claim_C7.1 testOracle testBullet testZombie [] baseState rfl
      (by with_unfolding_all decide))

/-! ## Pickup collection (C8) -/

theorem updatePickupsLoop_nil (M : MathOracle) (s : GameState) :
    updatePickupsLoop M [] s = ([], s) := rfl

/-- One unfolding step of the pickup collision pass. -/
theorem updatePickupsLoop_cons (M : MathOracle) (pk : Pickup) (rest : List Pickup)
    (s : GameState) :
    updatePickupsLoop M (pk :: rest) s =
      (if pk.collected then
        ((updatePickupsLoop M rest s).1.cons pk, (updatePickupsLoop M rest s).2)
      else if hypotLt (pk.x - s.player.x) (pk.y - s.player.y) 28 then
        (let pl' :=
          match pk.type with
          | PickupType.health =>
            { s.player with health := min s.player.maxHealth (s.player.health + pk.amount) }
          | PickupType.ammo => { s.player with ammo := s.player.ammo + pk.amount }
          | PickupType.armor =>
            { s.player with
              maxHealth := min 150 (s.player.maxHealth + 10)
              health := min (min 150 (s.player.maxHealth + 10)) (s.player.health + 10) }
        let color :=
          match pk.type with
          | PickupType.health => "#00ff00"
          | PickupType.ammo => "#ffaa00"
          | PickupType.armor => "#00aaff"
        let s1 := { s with
          player := pl'
          particles := s.particles ++ (pickupSparkBurst M pk.x pk.y color 10 s.rng).1
          rng := (pickupSparkBurst M pk.x pk.y color 10 s.rng).2 }
        ((updatePickupsLoop M rest s1).1.cons { pk with collected := true },
          (updatePickupsLoop M rest s1).2))
      else ((updatePickupsLoop M rest s).1.cons pk, (updatePickupsLoop M rest s).2)) := rfl

/-- C8: the collision pass relates to `updatePickups` by the filtering pass
(first conjunct, definitional).  An already-collected pickup is inert: with
it at the head of the pass, the resulting state is exactly the state the
pass produces without it, and the filtering pass removes it — so collection
is never applied twice even while the pickup is still present in the same
tick's pass.  An uncollected armor pickup within 28 units raises
`maxHealth` by 10 capped at 150 and health by 10 capped at the new
`maxHealth`, and the filtering pass leaves no trace of it.  Concretely: a
95/100 player collecting armor ends the same `updatePickups` call at
105/110 with an empty pickup list. -/
theorem claim_C8 (M : MathOracle) (s : GameState) (pk : Pickup) (rest : List Pickup) :
    (updatePickups M s =
      { (updatePickupsLoop M s.pickups s).2 with
        pickups := (updatePickupsLoop M s.pickups s).1.filter (fun p => ¬ p.collected) }) ∧
    (pk.collected = true →
      (updatePickupsLoop M (pk :: rest) s).2 = (updatePickupsLoop M rest s).2 ∧
      (updatePickupsLoop M (pk :: rest) s).1.filter (fun p => ¬ p.collected) =
        (updatePickupsLoop M rest s).1.filter (fun p => ¬ p.collected)) ∧
    (pk.collected = false → pk.type = PickupType.armor →
      hypotLt (pk.x - s.player.x) (pk.y - s.player.y) 28 = true →
      (updatePickupsLoop M [pk] s).2.player.maxHealth = min 150 (s.player.maxHealth + 10) ∧
      (updatePickupsLoop M [pk] s).2.player.health =
        min (min 150 (s.player.maxHealth + 10)) (s.player.health + 10) ∧
      (updatePickupsLoop M [pk] s).1.filter (fun p => ¬ p.collected) = []) ∧
    ((updatePickups testOracle c8State).player.maxHealth = 110 ∧
      (updatePickups testOracle c8State).player.health = 105 ∧
      (updatePickups testOracle c8State).pickups = []) := by
  refine ⟨rfl, fun hc => ?_, fun hc hty hd => ?_, ?_⟩
  · rw [updatePickupsLoop_cons]
    simp [hc, List.filter_cons]
  · rw [updatePickupsLoop_cons]
    simp only [hc, if_false, Bool.false_eq_true]
    rw [if_pos hd]
    simp [hty, updatePickupsLoop_nil, List.filter_cons]
  · refine ⟨?_, ?_, ?_⟩ <;> with_unfolding_all decide

theorem claim_C8_witness :
    (updatePickupsLoop testOracle [usedPickup] baseState).2 =
      (updatePickupsLoop testOracle [] baseState).2 ∧
    (updatePickupsLoop testOracle [armorPickup] baseState).2.player.maxHealth =
      min 150 (baseState.player.maxHealth + 10) :=
  ⟨((claim_C8 testOracle baseState usedPickup []).2.1 rfl).1,
   ((claim_C8 testOracle baseState armorPickup []).2.2.1 rfl rfl
      (by with_unfolding_all decide)).1⟩

/-! ## Frame lemmas for the per-tick subsystem updates

These record which parts of the state each subsystem leaves alone; they are
the backbone of the whole-tick claims C1 and C10. -/

theorem updateParticles_player (dt : ℚ) (s : GameState) :
    (updateParticles dt s).player = s.player := rfl

theorem updateParticles_status (dt : ℚ) (s : GameState) :
    (updateParticles dt s).status = s.status := rfl

theorem updateParticles_enemies (dt : ℚ) (s : GameState) :
    (updateParticles dt s).enemies = s.enemies := rfl

theorem updateLights_player (dt : ℚ) (s : GameState) :
    (updateLights dt s).player = s.player := rfl

theorem updateLights_status (dt : ℚ) (s : GameState) :
    (updateLights dt s).status = s.status := rfl

theorem updateLights_enemies (dt : ℚ) (s : GameState) :
    (updateLights dt s).enemies = s.enemies := rfl

theorem updateDecals_player (dt : ℚ) (s : GameState) :
    (updateDecals dt s).player = s.player := rfl

theorem updateDecals_status (dt : ℚ) (s : GameState) :
    (updateDecals dt s).status = s.status := rfl

theorem updateDecals_enemies (dt : ℚ) (s : GameState) :
    (updateDecals dt s).enemies = s.enemies := rfl

theorem updateCamera_player (dt : ℚ) (s : GameState) :
    (updateCamera dt s).player = s.player := by
  rcases hl : s.level with - | lv <;> simp only [updateCamera, hl]

theorem updateCamera_status (dt : ℚ) (s : GameState) :
    (updateCamera dt s).status = s.status := by
  rcases hl : s.level with - | lv <;> simp only [updateCamera, hl]

theorem updateCamera_enemies (dt : ℚ) (s : GameState) :
    (updateCamera dt s).enemies = s.enemies := by
  rcases hl : s.level with - | lv <;> simp only [updateCamera, hl]

theorem shoot_frame (M : MathOracle) (s : GameState) :
    (shoot M s).player.health = s.player.health ∧
    (shoot M s).player.maxHealth = s.player.maxHealth ∧
    (shoot M s).status = s.status ∧
    (shoot M s).enemies = s.enemies := ⟨rfl, rfl, rfl, rfl⟩

/-- The bullet `shoot` pushes is the player's own (`isEnemy = false`). -/
theorem shoot_bullets (M : MathOracle) (s : GameState) :
    ∀ b ∈ (shoot M s).bullets, b ∈ s.bullets ∨ b.isEnemy = false := by
  intro b hb
  rcases List.mem_append.mp hb with h | h
  · exact Or.inl h
  · rcases List.mem_singleton.mp h with rfl
    exact Or.inr rfl

theorem updatePlayerMove_health (M : MathOracle) (dt : ℚ) (s : GameState) :
    (updatePlayerMove M dt s).player.health = s.player.health := by
  simp only [updatePlayerMove]
  simp [apply_ite Player.health]

theorem updatePlayerMove_maxHealth (M : MathOracle) (dt : ℚ) (s : GameState) :
    (updatePlayerMove M dt s).player.maxHealth = s.player.maxHealth := by
  simp only [updatePlayerMove]
  simp [apply_ite Player.maxHealth]

theorem updatePlayerMove_ammo (M : MathOracle) (dt : ℚ) (s : GameState) :
    (updatePlayerMove M dt s).player.ammo = s.player.ammo := by
  simp only [updatePlayerMove]
  simp [apply_ite Player.ammo]

theorem updatePlayerMove_status (M : MathOracle) (dt : ℚ) (s : GameState) :
    (updatePlayerMove M dt s).status = s.status := rfl

theorem updatePlayerMove_enemies (M : MathOracle) (dt : ℚ) (s : GameState) :
    (updatePlayerMove M dt s).enemies = s.enemies := rfl

theorem updatePlayerMove_bullets (M : MathOracle) (dt : ℚ) (s : GameState) :
    (updatePlayerMove M dt s).bullets = s.bullets := rfl

theorem updatePlayerFire_health (M : MathOracle) (s : GameState) :
    (updatePlayerFire M s).player.health = s.player.health := by
  delta updatePlayerFire
  split <;> rfl

theorem updatePlayerFire_maxHealth (M : MathOracle) (s : GameState) :
    (updatePlayerFire M s).player.maxHealth = s.player.maxHealth := by
  delta updatePlayerFire
  split <;> rfl

theorem updatePlayerFire_status (M : MathOracle) (s : GameState) :
    (updatePlayerFire M s).status = s.status := by
  delta updatePlayerFire
  split <;> rfl

theorem updatePlayerFire_enemies (M : MathOracle) (s : GameState) :
    (updatePlayerFire M s).enemies = s.enemies := by
  delta updatePlayerFire
  split <;> rfl

theorem updatePlayerFire_bullets_shape (M : MathOracle) (s : GameState) :
    (updatePlayerFire M s).bullets = s.bullets ∨
    ∃ nb, nb.isEnemy = false ∧ (updatePlayerFire M s).bullets = s.bullets ++ [nb] := by
  delta updatePlayerFire
  split
  · right
    exact ⟨_, rfl, rfl⟩
  · left
    rfl

theorem updatePlayerAim_player (M : MathOracle) (s : GameState) :
    (updatePlayerAim M s).player.health = s.player.health ∧
    (updatePlayerAim M s).player.maxHealth = s.player.maxHealth := by
  delta updatePlayerAim
  split <;> exact ⟨rfl, rfl⟩

theorem updatePlayerAim_bullets (M : MathOracle) (s : GameState) :
    (updatePlayerAim M s).bullets = s.bullets := by
  delta updatePlayerAim
  split <;> rfl

theorem updatePlayerAim_status (M : MathOracle) (s : GameState) :
    (updatePlayerAim M s).status = s.status := by
  delta updatePlayerAim
  split <;> rfl

theorem updatePlayerAim_enemies (M : MathOracle) (s : GameState) :
    (updatePlayerAim M s).enemies = s.enemies := by
  delta updatePlayerAim
  split <;> rfl

theorem updatePlayer_health (M : MathOracle) (dt : ℚ) (s : GameState) :
    (updatePlayer M dt s).player.health = s.player.health := by
  unfold updatePlayer
  rw [(updatePlayerAim_player ..).1, updatePlayerFire_health, updatePlayerMove_health]

theorem updatePlayer_maxHealth (M : MathOracle) (dt : ℚ) (s : GameState) :
    (updatePlayer M dt s).player.maxHealth = s.player.maxHealth := by
  unfold updatePlayer
  rw [(updatePlayerAim_player ..).2, updatePlayerFire_maxHealth, updatePlayerMove_maxHealth]

theorem updatePlayer_status (M : MathOracle) (dt : ℚ) (s : GameState) :
    (updatePlayer M dt s).status = s.status := by
  unfold updatePlayer
  rw [updatePlayerAim_status, updatePlayerFire_status, updatePlayerMove_status]

theorem updatePlayer_enemies (M : MathOracle) (dt : ℚ) (s : GameState) :
    (updatePlayer M dt s).enemies = s.enemies := by
  unfold updatePlayer
  rw [updatePlayerAim_enemies, updatePlayerFire_enemies, updatePlayerMove_enemies]

/-- `updatePlayer` adds at most the player's own bullet (`isEnemy = false`):
the bullet list is either unchanged or extended by that one bullet. -/
theorem updatePlayer_bullets_shape (M : MathOracle) (dt : ℚ) (s : GameState) :
    (updatePlayer M dt s).bullets = s.bullets ∨
    ∃ nb, nb.isEnemy = false ∧ (updatePlayer M dt s).bullets = s.bullets ++ [nb] := by
  unfold updatePlayer
  rw [updatePlayerAim_bullets]
  rcases updatePlayerFire_bullets_shape M (updatePlayerMove M dt s) with h | ⟨nb, hnb, h⟩
  · left
    rw [h]
    rfl
  · right
    refine ⟨nb, hnb, ?_⟩
    rw [h]
    rfl

theorem moveEnemy_frame (level : Option ParsedLevel) (dt : ℚ) (e : Enemy) (dx dy dist : ℚ) :
    (moveEnemy level dt e dx dy dist).damage = e.damage ∧
    (moveEnemy level dt e dx dy dist).alive = e.alive ∧
    (moveEnemy level dt e dx dy dist).type = e.type := by
  simp only [moveEnemy]
  repeat' split
  all_goals exact ⟨rfl, rfl, rfl⟩

theorem enemyShoot_frame (M : MathOracle) (e : Enemy) (s : GameState) :
    (enemyShoot M e s).player = s.player ∧
    (enemyShoot M e s).status = s.status ∧
    (enemyShoot M e s).enemies = s.enemies := ⟨rfl, rfl, rfl⟩

theorem enemyShoot_bullets (M : MathOracle) (e : Enemy) (s : GameState) :
    ∀ b ∈ (enemyShoot M e s).bullets, b ∈ s.bullets ∨ b.damage = e.damage := by
  intro b hb
  rcases List.mem_append.mp hb with h | h
  · exact Or.inl h
  · rcases List.mem_singleton.mp h with rfl
    exact Or.inr rfl

/-- The state effects of one living enemy's AI step: the player can only lose
health (by exactly the enemy's melee damage, when it attacks), max health
and status are untouched, and the enemies field is untouched. -/
theorem updateEnemyAlive_state (M : MathOracle) (dt : ℚ) (e : Enemy) (s : GameState)
    (hd : 0 ≤ e.damage) :
    (updateEnemyAlive M dt e s).2.player.maxHealth = s.player.maxHealth ∧
    (updateEnemyAlive M dt e s).2.player.health ≤ s.player.health ∧
    (updateEnemyAlive M dt e s).2.status = s.status ∧
    (updateEnemyAlive M dt e s).2.enemies = s.enemies := by
  simp only [updateEnemyAlive, enemyShoot]
  repeat' split
  all_goals refine ⟨rfl, ?_, rfl, rfl⟩
  all_goals first
    | exact le_refl _
    | (show s.player.health - e.damage ≤ s.player.health
       linarith)

theorem updateEnemiesLoop_cons (M : MathOracle) (dt : ℚ) (e : Enemy) (rest : List Enemy)
    (s : GameState) :
    updateEnemiesLoop M dt (e :: rest) s =
      (if e.alive then
        ((updateEnemiesLoop M dt rest (updateEnemyAlive M dt e s).2).1.cons
            (updateEnemyAlive M dt e s).1,
          (updateEnemiesLoop M dt rest (updateEnemyAlive M dt e s).2).2)
      else
        ((updateEnemiesLoop M dt rest s).1.cons e, (updateEnemiesLoop M dt rest s).2)) := rfl

/-- A living enemy's AI step pushes at most one bullet, and that bullet
carries the enemy's damage value. -/
theorem updateEnemyAlive_bullets_shape (M : MathOracle) (dt : ℚ) (e : Enemy) (s : GameState) :
    (updateEnemyAlive M dt e s).2.bullets = s.bullets ∨
    ∃ nb, nb.damage = e.damage ∧
      (updateEnemyAlive M dt e s).2.bullets = s.bullets ++ [nb] := by
  simp only [updateEnemyAlive, enemyShoot]
  repeat' split
  all_goals first
    | (left
       rfl)
    | (right
       refine ⟨_, ?_, rfl⟩
       first
         | rfl
         | exact (moveEnemy_frame ..).1)

/-- The enemy pass rebuilds the roster in place: the list keeps its length,
and an enemy that is dead on entry keeps its exact record at its index
(`if (!enemy.alive) continue`). -/
theorem updateEnemiesLoop_list (M : MathOracle) (dt : ℚ) :
    ∀ (es : List Enemy) (s : GameState),
      ((updateEnemiesLoop M dt es s).1).length = es.length ∧
      (∀ i e, es.get? i = some e → e.alive = false →
        ((updateEnemiesLoop M dt es s).1).get? i = some e)
  | [], _ => ⟨rfl, fun i e h _ => by cases h⟩
  | e :: rest, s => by
    rw [updateEnemiesLoop_cons]
    by_cases ha : e.alive = true
    · simp only [ha, if_true]
      obtain ⟨hlen, hdead⟩ := updateEnemiesLoop_list M dt rest (updateEnemyAlive M dt e s).2
      refine ⟨by simp [hlen], fun i e' h hd => ?_⟩
      match i, h with
      | 0, h =>
        simp only [List.get?_cons_zero, Option.some.injEq] at h
        subst h
        rw [ha] at hd
        cases hd
      | i + 1, h => exact hdead i e' h hd
    · simp only [ha, if_false, Bool.false_eq_true]
      obtain ⟨hlen, hdead⟩ := updateEnemiesLoop_list M dt rest s
      refine ⟨by simp [hlen], fun i e' h hd => ?_⟩
      match i, h with
      | 0, h => exact h
      | i + 1, h => exact hdead i e' h hd

/-- State effects of the whole enemy pass: the player only loses health, max
health and status are untouched, and every bullet it adds carries some
roster enemy's damage — so when all enemy damages are nonnegative, the
"enemy bullets deal nonnegative damage" invariant is preserved. -/
theorem updateEnemiesLoop_state (M : MathOracle) (dt : ℚ) :
    ∀ (es : List Enemy) (s : GameState), (∀ e ∈ es, 0 ≤ e.damage) →
      (updateEnemiesLoop M dt es s).2.player.maxHealth = s.player.maxHealth ∧
      (updateEnemiesLoop M dt es s).2.player.health ≤ s.player.health ∧
      (updateEnemiesLoop M dt es s).2.status = s.status ∧
      ((∀ b ∈ s.bullets, b.isEnemy = true → 0 ≤ b.damage) →
        ∀ b ∈ (updateEnemiesLoop M dt es s).2.bullets, b.isEnemy = true → 0 ≤ b.damage)
  | [], _, _ => ⟨rfl, le_refl _, rfl, fun hg => hg⟩
  | e :: rest, s, hd => by
    rw [updateEnemiesLoop_cons]
    have hde : 0 ≤ e.damage := hd e (List.mem_cons_self e rest)
    have hdr : ∀ e' ∈ rest, 0 ≤ e'.damage := fun e' h => hd e' (List.mem_cons_of_mem e h)
    by_cases ha : e.alive = true
    · simp only [ha, if_true]
      obtain ⟨hmax1, hhp1, hst1, hb1⟩ := updateEnemyAlive_state M dt e s hde
      obtain ⟨hmax2, hhp2, hst2, hb2⟩ :=
        updateEnemiesLoop_state M dt rest (updateEnemyAlive M dt e s).2 hdr
      refine ⟨by rw [hmax2, hmax1], le_trans hhp2 hhp1, by rw [hst2, hst1], fun hg => ?_⟩
      refine hb2 (fun b hb hbe => ?_)
      rcases updateEnemyAlive_bullets_shape M dt e s with h | ⟨nb, hnb, h⟩
      · rw [h] at hb
        exact hg b hb hbe
      · rw [h] at hb
        rcases List.mem_append.mp hb with hbm | hbm
        · exact hg b hbm hbe
        · rcases List.mem_singleton.mp hbm with rfl
          rw [hnb]
          exact hde
    · simp only [ha, if_false, Bool.false_eq_true]
      exact updateEnemiesLoop_state M dt rest s hdr

theorem updateEnemies_frame (M : MathOracle) (dt : ℚ) (s : GameState)
    (hd : ∀ e ∈ s.enemies, 0 ≤ e.damage) :
    (updateEnemies M dt s).player.maxHealth = s.player.maxHealth ∧
    (updateEnemies M dt s).player.health ≤ s.player.health ∧
    (updateEnemies M dt s).status = s.status ∧
    ((∀ b ∈ s.bullets, b.isEnemy = true → 0 ≤ b.damage) →
      ∀ b ∈ (updateEnemies M dt s).bullets, b.isEnemy = true → 0 ≤ b.damage) :=
  updateEnemiesLoop_state M dt s.enemies s hd

theorem updateEnemies_list (M : MathOracle) (dt : ℚ) (s : GameState) :
    ((updateEnemies M dt s).enemies).length = s.enemies.length ∧
    (∀ i e, s.enemies.get? i = some e → e.alive = false →
      ((updateEnemies M dt s).enemies).get? i = some e) :=
  updateEnemiesLoop_list M dt s.enemies s

/-! ## Bullet pass frame lemmas -/

theorem spawnWallHitEffect_frame (M : MathOracle) (x y : ℚ) (s : GameState) :
    (spawnWallHitEffect M x y s).player = s.player ∧
    (spawnWallHitEffect M x y s).status = s.status ∧
    (spawnWallHitEffect M x y s).bullets = s.bullets ∧
    (spawnWallHitEffect M x y s).enemies = s.enemies := ⟨rfl, rfl, rfl, rfl⟩

theorem spawnBloodEffect_frame (M : MathOracle) (x y vx vy : ℚ) (s : GameState) :
    (spawnBloodEffect M x y vx vy s).player = s.player ∧
    (spawnBloodEffect M x y vx vy s).status = s.status ∧
    (spawnBloodEffect M x y vx vy s).bullets = s.bullets ∧
    (spawnBloodEffect M x y vx vy s).enemies = s.enemies := ⟨rfl, rfl, rfl, rfl⟩

theorem killEnemy_frame (M : MathOracle) (e : Enemy) (s : GameState) :
    (killEnemy M e s).2.player = s.player ∧
    (killEnemy M e s).2.status = s.status ∧
    (killEnemy M e s).2.bullets = s.bullets ∧
    (killEnemy M e s).2.enemies = s.enemies := ⟨rfl, rfl, rfl, rfl⟩

/-- The per-bullet enemy scan: it never touches the player, the status or the
bullet list of the threaded state, the returned bullet keeps its damage and
owner, and the rebuilt roster keeps its length with every dead enemy's
record intact at its index. -/
theorem bulletEnemyLoop_spec (M : MathOracle) (b : Bullet) :
    ∀ (es : List Enemy) (s : GameState),
      ((bulletEnemyLoop M b es s).2.2.player = s.player ∧
        (bulletEnemyLoop M b es s).2.2.status = s.status ∧
        (bulletEnemyLoop M b es s).2.2.bullets = s.bullets) ∧
      ((bulletEnemyLoop M b es s).2.1.damage = b.damage ∧
        (bulletEnemyLoop M b es s).2.1.isEnemy = b.isEnemy) ∧
      ((bulletEnemyLoop M b es s).1).length = es.length ∧
      (∀ i e, es.get? i = some e → e.alive = false →
        ((bulletEnemyLoop M b es s).1).get? i = some e)
  | [], _ => ⟨⟨rfl, rfl, rfl⟩, ⟨rfl, rfl⟩, rfl, fun i e h _ => by cases h⟩
  | e :: rest, s => by
    rw [bulletEnemyLoop_cons]
    by_cases ha : e.alive = true
    · simp only [ha, if_true]
      by_cases hin : hypotLt (b.x - e.x) (b.y - e.y) e.size = true
      · simp only [hin, if_true]
        by_cases hk : ({ e with hp := e.hp - b.damage, hitFlash := 1/10 } : Enemy).hp ≤ 0
        · simp only [hk, if_true]
          refine ⟨⟨rfl, rfl, rfl⟩, ⟨trivial, trivial⟩, by simp, fun i e' h hd => ?_⟩
          match i, h with
          | 0, h =>
            simp only [List.get?_cons_zero, Option.some.injEq] at h
            subst h
            rw [ha] at hd
            cases hd
          | i + 1, h => exact h
        · simp only [hk, if_false]
          refine ⟨⟨rfl, rfl, rfl⟩, ⟨trivial, trivial⟩, by simp, fun i e' h hd => ?_⟩
          match i, h with
          | 0, h =>
            simp only [List.get?_cons_zero, Option.some.injEq] at h
            subst h
            rw [ha] at hd
            cases hd
          | i + 1, h => exact h
      · simp only [hin, if_false, Bool.false_eq_true]
        obtain ⟨hst, hbul, hlen, hdead⟩ := bulletEnemyLoop_spec M b rest s
        refine ⟨hst, hbul, by simp [hlen], fun i e' h hd => ?_⟩
        match i, h with
        | 0, h => exact h
        | i + 1, h => exact hdead i e' h hd
    · simp only [ha, if_false, Bool.false_eq_true]
      obtain ⟨hst, hbul, hlen, hdead⟩ := bulletEnemyLoop_spec M b rest s
      refine ⟨hst, hbul, by simp [hlen], fun i e' h hd => ?_⟩
      match i, h with
      | 0, h => exact h
      | i + 1, h => exact hdead i e' h hd

theorem bulletWallCheck_spec (M : MathOracle) (b : Bullet) (s : GameState) :
    ((bulletWallCheck M b s).2.player = s.player ∧
      (bulletWallCheck M b s).2.status = s.status ∧
      (bulletWallCheck M b s).2.bullets = s.bullets ∧
      (bulletWallCheck M b s).2.enemies = s.enemies) ∧
    ((bulletWallCheck M b s).1.damage = b.damage ∧
      (bulletWallCheck M b s).1.isEnemy = b.isEnemy) := by
  delta bulletWallCheck
  split <;> exact ⟨⟨rfl, rfl, rfl, rfl⟩, rfl, rfl⟩

theorem bulletEnemyCheck_spec (M : MathOracle) (b : Bullet) (s : GameState) :
    ((bulletEnemyCheck M b s).2.player = s.player ∧
      (bulletEnemyCheck M b s).2.status = s.status ∧
      (bulletEnemyCheck M b s).2.bullets = s.bullets) ∧
    ((bulletEnemyCheck M b s).1.damage = b.damage ∧
      (bulletEnemyCheck M b s).1.isEnemy = b.isEnemy) ∧
    ((bulletEnemyCheck M b s).2.enemies).length = s.enemies.length ∧
    (∀ i e, s.enemies.get? i = some e → e.alive = false →
      ((bulletEnemyCheck M b s).2.enemies).get? i = some e) := by
  delta bulletEnemyCheck
  split
  · obtain ⟨⟨h1, h2, h3⟩, hbul, hlen, hdead⟩ := bulletEnemyLoop_spec M b s.enemies s
    exact ⟨⟨h1, h2, h3⟩, hbul, hlen, hdead⟩
  · exact ⟨⟨rfl, rfl, rfl⟩, ⟨rfl, rfl⟩, rfl, fun i e h _ => h⟩

theorem bulletPlayerCheck_spec (M : MathOracle) (b : Bullet) (s : GameState) :
    ((b.isEnemy = true → 0 ≤ b.damage) →
      (bulletPlayerCheck M b s).2.player.health ≤ s.player.health) ∧
    (bulletPlayerCheck M b s).2.player.maxHealth = s.player.maxHealth ∧
    (bulletPlayerCheck M b s).2.status = s.status ∧
    (bulletPlayerCheck M b s).2.bullets = s.bullets ∧
    (bulletPlayerCheck M b s).2.enemies = s.enemies := by
  delta bulletPlayerCheck
  split
  · rename_i hcond
    split
    · refine ⟨fun hg => ?_, rfl, rfl, rfl, rfl⟩
      have := hg hcond.1
      show s.player.health - b.damage ≤ s.player.health
      linarith
    · exact ⟨fun _ => le_refl _, rfl, rfl, rfl, rfl⟩
  · exact ⟨fun _ => le_refl _, rfl, rfl, rfl, rfl⟩

theorem updateBulletStep_spec (M : MathOracle) (dt : ℚ) (b : Bullet) (s : GameState) :
    ((b.isEnemy = true → 0 ≤ b.damage) →
      (updateBulletStep M dt b s).2.player.health ≤ s.player.health) ∧
    (updateBulletStep M dt b s).2.player.maxHealth = s.player.maxHealth ∧
    (updateBulletStep M dt b s).2.status = s.status ∧
    (updateBulletStep M dt b s).2.bullets = s.bullets ∧
    ((updateBulletStep M dt b s).2.enemies).length = s.enemies.length ∧
    (∀ i e, s.enemies.get? i = some e → e.alive = false →
      ((updateBulletStep M dt b s).2.enemies).get? i = some e) := by
  delta updateBulletStep
  have hb1 : (bulletIntegrate dt b).damage = b.damage ∧
      (bulletIntegrate dt b).isEnemy = b.isEnemy := ⟨rfl, rfl⟩
  obtain ⟨⟨w1, w2, w3, w4⟩, wd, we⟩ := bulletWallCheck_spec M (bulletIntegrate dt b) s
  obtain ⟨⟨e1, e2, e3⟩, ⟨ed, ee⟩, elen, edead⟩ :=
    bulletEnemyCheck_spec M (bulletWallCheck M (bulletIntegrate dt b) s).1
      (bulletWallCheck M (bulletIntegrate dt b) s).2
  obtain ⟨p1, p2, p3, p4, p5⟩ :=
    bulletPlayerCheck_spec M
      (bulletEnemyCheck M (bulletWallCheck M (bulletIntegrate dt b) s).1
        (bulletWallCheck M (bulletIntegrate dt b) s).2).1
      (bulletEnemyCheck M (bulletWallCheck M (bulletIntegrate dt b) s).1
        (bulletWallCheck M (bulletIntegrate dt b) s).2).2
  refine ⟨fun hg => ?_, ?_, ?_, ?_, ?_, ?_⟩
  · have hgood : (bulletEnemyCheck M (bulletWallCheck M (bulletIntegrate dt b) s).1
        (bulletWallCheck M (bulletIntegrate dt b) s).2).1.isEnemy = true →
        0 ≤ (bulletEnemyCheck M (bulletWallCheck M (bulletIntegrate dt b) s).1
          (bulletWallCheck M (bulletIntegrate dt b) s).2).1.damage := by
      intro hie
      rw [ee, we, hb1.2] at hie
      rw [ed, wd, hb1.1]
      exact hg hie
    calc (bulletPlayerCheck M _ _).2.player.health
        ≤ (bulletEnemyCheck M _ _).2.player.health := p1 hgood
      _ = (bulletWallCheck M _ _).2.player.health := by rw [e1]
      _ = s.player.health := by rw [w1]
  · rw [p2, e1, w1]
  · rw [p3, e2, w2]
  · rw [p4, e3, w3]
  · rw [p5, elen, w4]
  · intro i e h hd
    rw [p5]
    refine edead i e ?_ hd
    rw [w4]
    exact h

theorem updateBulletsLoop_cons (M : MathOracle) (dt : ℚ) (b : Bullet) (rest : List Bullet)
    (s : GameState) :
    updateBulletsLoop M dt (b :: rest) s =
      ((updateBulletsLoop M dt rest (updateBulletStep M dt b s).2).1.cons
          (updateBulletStep M dt b s).1,
        (updateBulletsLoop M dt rest (updateBulletStep M dt b s).2).2) := rfl

/-- The whole bullet pass: with every enemy bullet dealing nonnegative
damage, the player only loses health; max health and status are untouched;
the roster keeps its length and dead enemies keep their records. -/
theorem updateBulletsLoop_spec (M : MathOracle) (dt : ℚ) :
    ∀ (bs : List Bullet) (s : GameState),
      (∀ b ∈ bs, b.isEnemy = true → 0 ≤ b.damage) →
      (updateBulletsLoop M dt bs s).2.player.health ≤ s.player.health ∧
      (updateBulletsLoop M dt bs s).2.player.maxHealth = s.player.maxHealth ∧
      (updateBulletsLoop M dt bs s).2.status = s.status ∧
      ((updateBulletsLoop M dt bs s).2.enemies).length = s.enemies.length ∧
      (∀ i e, s.enemies.get? i = some e → e.alive = false →
        ((updateBulletsLoop M dt bs s).2.enemies).get? i = some e)
  | [], _, _ => ⟨le_refl _, rfl, rfl, rfl, fun _ _ h _ => h⟩
  | b :: rest, s, hg => by
    rw [updateBulletsLoop_cons]
    have hgb : b.isEnemy = true → 0 ≤ b.damage := hg b (List.mem_cons_self b rest)
    have hgr : ∀ b' ∈ rest, b'.isEnemy = true → 0 ≤ b'.damage :=
      fun b' h => hg b' (List.mem_cons_of_mem b h)
    obtain ⟨s1hp, s1max, s1st, s1bul, s1len, s1dead⟩ := updateBulletStep_spec M dt b s
    obtain ⟨rhp, rmax, rst, rlen, rdead⟩ :=
      updateBulletsLoop_spec M dt rest (updateBulletStep M dt b s).2 hgr
    refine ⟨le_trans rhp (s1hp hgb), by rw [rmax, s1max], by rw [rst, s1st],
      by rw [rlen, s1len], fun i e h hd => rdead i e (s1dead i e h hd) hd⟩

theorem updateBullets_frame (M : MathOracle) (dt : ℚ) (s : GameState)
    (hg : ∀ b ∈ s.bullets, b.isEnemy = true → 0 ≤ b.damage) :
    (updateBullets M dt s).player.health ≤ s.player.health ∧
    (updateBullets M dt s).player.maxHealth = s.player.maxHealth ∧
    (updateBullets M dt s).status = s.status ∧
    ((updateBullets M dt s).enemies).length = s.enemies.length ∧
    (∀ i e, s.enemies.get? i = some e → e.alive = false →
      ((updateBullets M dt s).enemies).get? i = some e) :=
  updateBulletsLoop_spec M dt s.bullets s hg

/-! ## Pickup pass frame lemmas -/

/-- The pickup pass preserves the health-below-max invariant (every branch
either leaves the player alone or caps the new health at the applicable
max), and touches neither status nor enemies. -/
theorem updatePickupsLoop_inv (M : MathOracle) :
    ∀ (ps : List Pickup) (s : GameState),
      s.player.health ≤ s.player.maxHealth →
      ((updatePickupsLoop M ps s).2.player.health ≤
        (updatePickupsLoop M ps s).2.player.maxHealth ∧
      (updatePickupsLoop M ps s).2.status = s.status ∧
      (updatePickupsLoop M ps s).2.enemies = s.enemies)
  | [], _, hs => ⟨hs, rfl, rfl⟩
  | pk :: rest, s, hs => by
    rw [updatePickupsLoop_cons]
    by_cases hc : pk.collected = true
    · simp only [hc, if_true]
      exact updatePickupsLoop_inv M rest s hs
    · simp only [hc, if_false, Bool.false_eq_true]
      by_cases hd : hypotLt (pk.x - s.player.x) (pk.y - s.player.y) 28 = true
      · rw [if_pos hd]
        rcases hty : pk.type
        all_goals simp only [hty]
        all_goals refine updatePickupsLoop_inv M rest _ ?_
        · exact min_le_left _ _
        · exact hs
        · exact min_le_left _ _
      · rw [if_neg hd]
        exact updatePickupsLoop_inv M rest s hs

theorem updatePickups_frame (M : MathOracle) (s : GameState)
    (hs : s.player.health ≤ s.player.maxHealth) :
    (updatePickups M s).player.health ≤ (updatePickups M s).player.maxHealth ∧
    (updatePickups M s).status = s.status ∧
    (updatePickups M s).enemies = s.enemies :=
  updatePickupsLoop_inv M s.pickups s hs

/-! ## Wave and camera frame lemmas -/

theorem spawnWave_player (t : GameState) : (spawnWave t).player = t.player := by
  rcases hl : t.level with - | lv <;> simp only [spawnWave, hl]

theorem spawnWave_status (t : GameState) : (spawnWave t).status = t.status := by
  rcases hl : t.level with - | lv <;> simp only [spawnWave, hl]

theorem spawnWave_enemies_ext (t : GameState) :
    ∃ app, (spawnWave t).enemies = t.enemies ++ app := by
  rcases hl : t.level with - | lv
  · exact ⟨[], by simp only [spawnWave, hl]; rw [List.append_nil]⟩
  · refine ⟨(spawnWaveLoop lv t.player (waveTypes t.wave)
      (t.enemiesPerWave + 2 * t.wave) t.rng).1, ?_⟩
    simp only [spawnWave, hl]

theorem waveClearCheck_frame (s : GameState) :
    (waveClearCheck s).player = s.player ∧
    (waveClearCheck s).status = s.status ∧
    (waveClearCheck s).enemies = s.enemies := by
  simp only [waveClearCheck]
  split <;> exact ⟨rfl, rfl, rfl⟩

theorem waveCountdown_player (dt : ℚ) (s : GameState) :
    (waveCountdown dt s).player = s.player := by
  simp only [waveCountdown]
  split
  · rfl
  · split
    · rw [spawnWave_player]
    · rfl

theorem waveCountdown_status (dt : ℚ) (s : GameState) :
    (waveCountdown dt s).status = s.status := by
  simp only [waveCountdown]
  split
  · rfl
  · split
    · rw [spawnWave_status]
    · rfl

theorem waveCountdown_enemies_ext (dt : ℚ) (s : GameState) :
    ∃ app, (waveCountdown dt s).enemies = s.enemies ++ app := by
  simp only [waveCountdown]
  split
  · exact ⟨[], by rw [List.append_nil]⟩
  · split
    · exact spawnWave_enemies_ext _
    · exact ⟨[], by rw [List.append_nil]⟩

theorem updateWaves_player (dt : ℚ) (s : GameState) :
    (updateWaves dt s).player = s.player := by
  unfold updateWaves
  rw [waveCountdown_player, (waveClearCheck_frame s).1]

theorem updateWaves_status (dt : ℚ) (s : GameState) :
    (updateWaves dt s).status = s.status := by
  unfold updateWaves
  rw [waveCountdown_status, (waveClearCheck_frame s).2.1]

theorem updateWaves_enemies_ext (dt : ℚ) (s : GameState) :
    ∃ app, (updateWaves dt s).enemies = s.enemies ++ app := by
  unfold updateWaves
  obtain ⟨app, happ⟩ := waveCountdown_enemies_ext dt (waveClearCheck s)
  exact ⟨app, by rw [happ, (waveClearCheck_frame s).2.2]⟩

theorem updateBulletsLoop_list (M : MathOracle) (dt : ℚ) :
    ∀ (bs : List Bullet) (s : GameState),
      ((updateBulletsLoop M dt bs s).2.enemies).length = s.enemies.length ∧
      (∀ i e, s.enemies.get? i = some e → e.alive = false →
        ((updateBulletsLoop M dt bs s).2.enemies).get? i = some e)
  | [], _ => ⟨rfl, fun _ _ h _ => h⟩
  | b :: rest, s => by
    rw [updateBulletsLoop_cons]
    obtain ⟨-, -, -, -, s1len, s1dead⟩ := updateBulletStep_spec M dt b s
    obtain ⟨rlen, rdead⟩ := updateBulletsLoop_list M dt rest (updateBulletStep M dt b s).2
    exact ⟨by rw [rlen, s1len], fun i e h hd => rdead i e (s1dead i e h hd) hd⟩

theorem updateBullets_list (M : MathOracle) (dt : ℚ) (s : GameState) :
    ((updateBullets M dt s).enemies).length = s.enemies.length ∧
    (∀ i e, s.enemies.get? i = some e → e.alive = false →
      ((updateBullets M dt s).enemies).get? i = some e) :=
  updateBulletsLoop_list M dt s.bullets s

theorem updatePickupsLoop_enemies (M : MathOracle) :
    ∀ (ps : List Pickup) (s : GameState),
      (updatePickupsLoop M ps s).2.enemies = s.enemies
  | [], _ => rfl
  | pk :: rest, s => by
    rw [updatePickupsLoop_cons]
    by_cases hc : pk.collected = true
    · simp only [hc, if_true]
      exact updatePickupsLoop_enemies M rest s
    · simp only [hc, if_false, Bool.false_eq_true]
      by_cases hd : hypotLt (pk.x - s.player.x) (pk.y - s.player.y) 28 = true
      · rw [if_pos hd]
        exact updatePickupsLoop_enemies M rest _
      · rw [if_neg hd]
        exact updatePickupsLoop_enemies M rest s

theorem updatePickups_enemies (M : MathOracle) (s : GameState) :
    (updatePickups M s).enemies = s.enemies :=
  updatePickupsLoop_enemies M s.pickups s

/-! ## The whole tick (C1, C10) -/

/-- `update` on a loaded level with a live player runs the subsystem chain in
source order. -/
theorem update_run (M : MathOracle) (dt : ℚ) (s : GameState) (lv : ParsedLevel)
    (hl : s.level = some lv) (hh : ¬ s.player.health ≤ 0) :
    update M dt s =
      { updateCamera dt (updateWaves dt (updateDecals dt (updateLights dt (updateParticles dt
          (updatePickups M (updateBullets M dt (updateEnemies M dt
            (updatePlayer M dt s)))))))) with
        screenShake := max 0
          ((updateCamera dt (updateWaves dt (updateDecals dt (updateLights dt
            (updateParticles dt (updatePickups M (updateBullets M dt (updateEnemies M dt
              (updatePlayer M dt s))))))))).screenShake - dt * 10) } := by
  simp only [update, hl]
  rw [if_neg hh]

/-- `update` on a loaded level with a dead player only stamps `gameover`. -/
theorem update_gameover (M : MathOracle) (dt : ℚ) (s : GameState) (lv : ParsedLevel)
    (hl : s.level = some lv) (hh : s.player.health ≤ 0) :
    update M dt s = { s with status := Status.gameover } := by
  simp only [update, hl]
  rw [if_pos hh]

/-- C1 (amended): per tick, health stays at or below `maxHealth` (given the
state's enemy and enemy-bullet damages are nonnegative, as every enemy the
game creates has positive damage); the code does NOT clamp health below at
0 — an enemy melee hit or bullet subtracts its full damage, so health can
go negative (see the counterexample).  Once health is ≤ 0 at the start of a
tick, `update` sets the status to `gameover` and freezes the state, so the
transition happens exactly once and repeating `update` is idempotent; while
health is positive the status is never changed by the tick. -/
theorem claim_C1_amended (M : MathOracle) (dt : ℚ) (s : GameState) (lv : ParsedLevel)
    (hl : s.level = some lv)
    (hmax : s.player.health ≤ s.player.maxHealth)
    (hens : ∀ e ∈ s.enemies, 0 ≤ e.damage)
    (hbul : ∀ b ∈ s.bullets, b.isEnemy = true → 0 ≤ b.damage) :
    ((update M dt s).player.health ≤ (update M dt s).player.maxHealth) ∧
    (s.player.health ≤ 0 → update M dt s = { s with status := Status.gameover }) ∧
    (0 < s.player.health → (update M dt s).status = s.status) ∧
    (s.player.health ≤ 0 → update M dt (update M dt s) = update M dt s) := by
  refine ⟨?_, fun h => update_gameover M dt s lv hl h, fun hpos => ?_, fun h => ?_⟩
  · by_cases hh : s.player.health ≤ 0
    · rw [update_gameover M dt s lv hl hh]
      exact hmax
    · rw [update_run M dt s lv hl hh]
      set s1 := updatePlayer M dt s with hs1
      set s2 := updateEnemies M dt s1 with hs2
      set s3 := updateBullets M dt s2 with hs3
      set s4 := updatePickups M s3 with hs4
      set s5 := updateParticles dt s4 with hs5
      set s6 := updateLights dt s5 with hs6
      set s7 := updateDecals dt s6 with hs7
      set s8 := updateWaves dt s7 with hs8
      set s9 := updateCamera dt s8 with hs9
      have h1ens : ∀ e ∈ s1.enemies, 0 ≤ e.damage := by
        rw [hs1, updatePlayer_enemies]
        exact hens
      have h1bul : ∀ b ∈ s1.bullets, b.isEnemy = true → 0 ≤ b.damage := by
        rcases updatePlayer_bullets_shape M dt s with hsh | ⟨nb, hnb, hsh⟩
        · rw [hs1, hsh]
          exact hbul
        · rw [hs1, hsh]
          intro b hbm hbe
          rcases List.mem_append.mp hbm with hm | hm
          · exact hbul b hm hbe
          · rcases List.mem_singleton.mp hm with rfl
            rw [hnb] at hbe
            cases hbe
      obtain ⟨h2m, h2h, h2st, h2g⟩ := updateEnemies_frame M dt s1 h1ens
      obtain ⟨h3h, h3m, h3st, -, -⟩ := updateBullets_frame M dt s2 (h2g h1bul)
      have h3inv : s3.player.health ≤ s3.player.maxHealth := by
        have : s3.player.health ≤ s.player.health := by
          refine le_trans h3h (le_trans h2h ?_)
          rw [hs1, updatePlayer_health]
        refine le_trans (le_trans this hmax) (le_of_eq ?_)
        rw [h3m, h2m, hs1, updatePlayer_maxHealth]
      obtain ⟨h4inv, h4st, -⟩ := updatePickups_frame M s3 h3inv
      have hplayer : ({ s9 with
          screenShake := max 0 (s9.screenShake - dt * 10) } : GameState).player = s4.player := by
        show s9.player = s4.player
        rw [hs9, updateCamera_player, hs8, updateWaves_player, hs7, updateDecals_player,
          hs6, updateLights_player, hs5, updateParticles_player]
      rw [hplayer]
      exact h4inv
  · have hh : ¬ s.player.health ≤ 0 := not_le.mpr hpos
    rw [update_run M dt s lv hl hh]
    show (updateCamera dt (updateWaves dt (updateDecals dt (updateLights dt (updateParticles dt
      (updatePickups M (updateBullets M dt (updateEnemies M dt
        (updatePlayer M dt s))))))))).status = s.status
    set s1 := updatePlayer M dt s with hs1
    set s2 := updateEnemies M dt s1 with hs2
    set s3 := updateBullets M dt s2 with hs3
    have h1ens : ∀ e ∈ s1.enemies, 0 ≤ e.damage := by
      rw [hs1, updatePlayer_enemies]
      exact hens
    have h1bul : ∀ b ∈ s1.bullets, b.isEnemy = true → 0 ≤ b.damage := by
      rcases updatePlayer_bullets_shape M dt s with hsh | ⟨nb, hnb, hsh⟩
      · rw [hs1, hsh]
        exact hbul
      · rw [hs1, hsh]
        intro b hbm hbe
        rcases List.mem_append.mp hbm with hm | hm
        · exact hbul b hm hbe
        · rcases List.mem_singleton.mp hm with rfl
          rw [hnb] at hbe
          cases hbe
    obtain ⟨-, -, h2st, h2g⟩ := updateEnemies_frame M dt s1 h1ens
    obtain ⟨-, h3m, h3st, -, -⟩ := updateBullets_frame M dt s2 (h2g h1bul)
    have h3inv : s3.player.health ≤ s3.player.maxHealth := by
      obtain ⟨h2m, h2h, -, -⟩ := updateEnemies_frame M dt s1 h1ens
      obtain ⟨h3h, -, -, -, -⟩ := updateBullets_frame M dt s2 (h2g h1bul)
      have : s3.player.health ≤ s.player.health := by
        refine le_trans h3h (le_trans h2h ?_)
        rw [hs1, updatePlayer_health]
      refine le_trans (le_trans this hmax) (le_of_eq ?_)
      rw [h3m, h2m, hs1, updatePlayer_maxHealth]
    obtain ⟨-, h4st, -⟩ := updatePickups_frame M s3 h3inv
    rw [updateCamera_status, updateWaves_status, updateDecals_status, updateLights_status,
      updateParticles_status, h4st, h3st, h2st, hs1, updatePlayer_status]
  · rw [update_gameover M dt s lv hl h]
    exact update_gameover M dt _ lv hl h

/-- C1 counterexample: the claim says health stays within `[0, maxHealth]`
after every tick, but damage is applied without a lower clamp.  A 5-health
player meleed by a zombie (12 damage) ends the tick at −7 < 0. -/
theorem claim_C1_counterexample :
    (update testOracle (1/100) c1State).player.health = -7 ∧
    ¬ (0 ≤ (update testOracle (1/100) c1State).player.health) := by
  constructor
  · with_unfolding_all decide
  · with_unfolding_all decide

theorem claim_C1_amended_witness :
    (update testOracle (1/100) baseState).player.health ≤
      (update testOracle (1/100) baseState).player.maxHealth ∧
    (update testOracle (1/100) baseState).status = baseState.status :=
  ⟨(claim_C1_amended testOracle (1/100) baseState testLevel rfl
      (by with_unfolding_all decide)
      (fun e h => absurd h (List.not_mem_nil e))
      (fun b h => absurd h (List.not_mem_nil b))).1,
   (claim_C1_amended testOracle (1/100) baseState testLevel rfl
      (by with_unfolding_all decide)
      (fun e h => absurd h (List.not_mem_nil e))
      (fun b h => absurd h (List.not_mem_nil b))).2.2.1
      (by with_unfolding_all decide)⟩

/-- C10: a dead enemy never comes back and is never removed within a tick —
its exact record stays at its roster index through the whole `update`
(every pass skips `!alive` enemies, so death processing cannot run a second
time for it), and the roster never shrinks: enemies are only ever appended
by the wave director, never deleted until `loadLevel` resets the array. -/
theorem claim_C10 (M : MathOracle) (dt : ℚ) (s : GameState) :
    (∀ i e, s.enemies.get? i = some e → e.alive = false →
      ((update M dt s).enemies).get? i = some e) ∧
    s.enemies.length ≤ ((update M dt s).enemies).length := by
  rcases hl : s.level with - | lv
  · have hid : update M dt s = s := by
      simp only [update, hl]
    rw [hid]
    exact ⟨fun _ _ h _ => h, le_refl _⟩
  · by_cases hh : s.player.health ≤ 0
    · rw [update_gameover M dt s lv hl hh]
      exact ⟨fun _ _ h _ => h, le_refl _⟩
    · rw [update_run M dt s lv hl hh]
      set s1 := updatePlayer M dt s with hs1
      set s2 := updateEnemies M dt s1 with hs2
      set s3 := updateBullets M dt s2 with hs3
      set s4 := updatePickups M s3 with hs4
      set s5 := updateParticles dt s4 with hs5
      set s6 := updateLights dt s5 with hs6
      set s7 := updateDecals dt s6 with hs7
      set s8 := updateWaves dt s7 with hs8
      set s9 := updateCamera dt s8 with hs9
      have he1 : s1.enemies = s.enemies := by rw [hs1, updatePlayer_enemies]
      obtain ⟨e2len, e2dead⟩ := updateEnemies_list M dt s1
      obtain ⟨e3len, e3dead⟩ := updateBullets_list M dt s2
      have he4 : s4.enemies = s3.enemies := by rw [hs4, updatePickups_enemies]
      have he7 : s7.enemies = s4.enemies := by
        rw [hs7, updateDecals_enemies, hs6, updateLights_enemies, hs5, updateParticles_enemies]
      obtain ⟨app, happ⟩ := updateWaves_enemies_ext dt s7
      have he9 : ({ s9 with
          screenShake := max 0 (s9.screenShake - dt * 10) } : GameState).enemies = s8.enemies := by
        show s9.enemies = s8.enemies
        rw [hs9, updateCamera_enemies]
      constructor
      · intro i e h hd
        have h1 : s1.enemies.get? i = some e := by rw [he1]; exact h
        have h2 : s2.enemies.get? i = some e := e2dead i e h1 hd
        have h3 : s3.enemies.get? i = some e := e3dead i e h2 hd
        have h7 : s7.enemies.get? i = some e := by rw [he7, he4]; exact h3
        have hlt : i < s7.enemies.length := by
          rcases List.get?_eq_some.mp h7 with ⟨hlt, -⟩
          exact hlt
        rw [he9, hs8, happ, List.get?_append hlt]
        exact h7
      · have hlen : s.enemies.length ≤ s8.enemies.length := by
          rw [hs8, happ, List.length_append, he7, he4, e3len, e2len, he1]
          exact Nat.le_add_right _ _
        rw [he9]
        exact hlen

theorem claim_C10_witness :
    ((update testOracle (1/100) c10State).enemies).get? 0 = some deadZombie ∧
    c10State.enemies.length ≤ ((update testOracle (1/100) c10State).enemies).length :=
  ⟨(claim_C10 testOracle (1/100) c10State).1 0 deadZombie rfl rfl,
   (claim_C10 testOracle (1/100) c10State).2⟩

end Doom
